import Mathlib

/-!
Verification development for the a11y-feedback announcement core.

The embedding below is a shallow model of the announcement coordination core
found in src/docs/a11y-feedback.umd.js (the bundled library) together with the
constants of src/packages/core/src/constants.ts.  Minified symbols are noted
next to each definition.  Time is modelled with Nat milliseconds; the DOM is
modelled by explicit record states; the single-threaded event loop is modelled
by explicit arrival and timer-firing steps.
-/

namespace A11y

/-- Feedback categories (FeedbackType in types.ts). -/
inductive FeedbackType where
  | success
  | info
  | loading
  | warning
  | error
deriving DecidableEq, Repr

/-- Per-category semantic policy record (FeedbackSemantics in types.ts). -/
structure FeedbackSemantics where
  role : String
  ariaLive : String
  priority : String
  canMoveFocus : Bool
  autoDismiss : Bool
deriving DecidableEq, Repr

/-- Semantic policy table, FEEDBACK_SEMANTICS in constants.ts (UMD symbol y). -/
def FEEDBACK_SEMANTICS : FeedbackType → FeedbackSemantics
  | .success => { role := "status", ariaLive := "polite", priority := "low",
                  canMoveFocus := false, autoDismiss := true }
  | .info    => { role := "status", ariaLive := "polite", priority := "low",
                  canMoveFocus := false, autoDismiss := true }
  | .loading => { role := "status", ariaLive := "polite", priority := "low",
                  canMoveFocus := false, autoDismiss := false }
  | .warning => { role := "alert", ariaLive := "assertive", priority := "high",
                  canMoveFocus := true, autoDismiss := true }
  | .error   => { role := "alert", ariaLive := "assertive", priority := "high",
                  canMoveFocus := true, autoDismiss := false }

/-- DEFAULT_TIMEOUTS in constants.ts (UMD symbol Z); 0 means never auto-dismiss. -/
def DEFAULT_TIMEOUTS : FeedbackType → Nat
  | .success => 5000
  | .info => 5000
  | .loading => 0
  | .warning => 8000
  | .error => 0

/-- ANNOUNCEMENT_DEBOUNCE_MS in constants.ts (UMD symbol P). -/
def ANNOUNCEMENT_DEBOUNCE_MS : Nat := 100

/-- REGION_CLEAR_DELAY_MS in constants.ts (UMD symbol ye). -/
def REGION_CLEAR_DELAY_MS : Nat := 50

/-- Dedupe window, local constant oe = 500 in the UMD bundle. -/
def DEDUPE_WINDOW_MS : Nat := 500

/-- ZERO_WIDTH_CHARS in constants.ts (UMD symbol V): zero-width space,
zero-width non-joiner, zero-width joiner, zero-width no-break space. -/
def ZERO_WIDTH_CHARS : List Char :=
  [Char.ofNat 0x200B, Char.ofNat 0x200C, Char.ofNat 0x200D, Char.ofNat 0xFEFF]

/-- Rotating zero-width character selection (UMD symbol Se):
V[counter mod V.length] with the same fallbacks as the source. -/
def getZeroWidthChar (counter : Nat) : Char :=
  ((ZERO_WIDTH_CHARS.get? (counter % ZERO_WIDTH_CHARS.length)).getD
    ((ZERO_WIDTH_CHARS.get? 0).getD (Char.ofNat 32)))

/-- String name of a category, as used in dedupe keys and focus messages. -/
def typeName : FeedbackType → String
  | .success => "success"
  | .info => "info"
  | .loading => "loading"
  | .warning => "warning"
  | .error => "error"

/-- Caller options (FeedbackOptions).  Undefined boolean options behave as
false in the source (checks of the form x === true), so they are Bool here;
timeout is a finite millisecond count (Infinity and NaN, which the source
treats like 0, are not representable in Nat). -/
structure FeedbackOptions where
  id : Option String
  focus : Option String
  explainFocus : Bool
  force : Bool
  timeout : Option Nat
deriving DecidableEq, Repr

/-- The central FeedbackEvent entity. -/
structure FeedbackEvent where
  id : String
  message : String
  type : FeedbackType
  role : String
  ariaLive : String
  priority : String
  options : FeedbackOptions
  timestamp : Nat
  replaced : Bool
  deduped : Bool
deriving DecidableEq, Repr

/-- Event construction (UMD symbol kt).  The random id of Ce() is passed in as
generatedId; the source picks it only when options.id is nullish. -/
def createFeedbackEvent (message : String) (t : FeedbackType) (opts : FeedbackOptions)
    (generatedId : String) (now : Nat) : FeedbackEvent :=
  { id := opts.id.getD generatedId
    message := message
    type := t
    role := (FEEDBACK_SEMANTICS t).role
    ariaLive := (FEEDBACK_SEMANTICS t).ariaLive
    priority := (FEEDBACK_SEMANTICS t).priority
    options := opts
    timestamp := now
    replaced := false
    deduped := false }

/-- Politeness channel of a live region. -/
inductive Politeness where
  | polite
  | assertive
deriving DecidableEq, Repr

/-- String form of a politeness level. -/
def politenessName : Politeness → String
  | .polite => "polite"
  | .assertive => "assertive"

/-- Dispatch on the ariaLive string exactly as the source does
(n === "assertive" picks the assertive channel, anything else polite). -/
def politenessOfString (s : String) : Politeness :=
  if s = "assertive" then .assertive else .polite

/-- Attributes of a live-region DOM element as created by the region manager. -/
structure RegionElement where
  id : String
  dataRegion : String
  ariaLive : String
  ariaAtomic : String
  role : String
deriving DecidableEq, Repr

/-- Live-region creation (UMD symbol ne): a visually hidden div carrying
aria-live, aria-atomic and a role derived from the politeness level. -/
def createRegion (level : Politeness) (elementId : String) : RegionElement :=
  { id := elementId
    dataRegion := politenessName level
    ariaLive := politenessName level
    ariaAtomic := "true"
    role := if level = Politeness.assertive then "alert" else "status" }

/-- Process-wide announcer state (UMD symbol g): last message and timestamp per
politeness channel plus the rolling zero-width character counter. -/
structure AnnouncerState where
  lastPoliteMessage : Option String
  lastAssertiveMessage : Option String
  lastPoliteTimestamp : Nat
  lastAssertiveTimestamp : Nat
  zwcCounter : Nat
deriving DecidableEq, Repr

/-- Last announced message recorded for a channel. -/
def lastMessageFor (g : AnnouncerState) : Politeness → Option String
  | .polite => g.lastPoliteMessage
  | .assertive => g.lastAssertiveMessage

/-- Last announcement timestamp recorded for a channel. -/
def lastTimestampFor (g : AnnouncerState) : Politeness → Nat
  | .polite => g.lastPoliteTimestamp
  | .assertive => g.lastAssertiveTimestamp

/-- Record a completed announcement for a channel (the continuation after the
await in Ie stores the original message and the completion time). -/
def setLastFor (g : AnnouncerState) (ch : Politeness) (msg : String) (ts : Nat) : AnnouncerState :=
  match ch with
  | .polite => { g with lastPoliteMessage := some msg, lastPoliteTimestamp := ts }
  | .assertive => { g with lastAssertiveMessage := some msg, lastAssertiveTimestamp := ts }

/-- Zero-width character injection (UMD symbol Ne): append the character at
the current counter and advance the counter. -/
def appendZeroWidth (g : AnnouncerState) (text : String) : String × AnnouncerState :=
  (text.push (getZeroWidthChar g.zwcCounter), { g with zwcCounter := g.zwcCounter + 1 })

/-- Text resolution at the head of Ie: force re-announcement when options.force
is set or the message equals the channel last announced message. -/
def resolveAnnounceText (g : AnnouncerState) (ch : Politeness) (message : String)
    (force : Bool) : String × AnnouncerState :=
  if force = true ∨ some message = lastMessageFor g ch then appendZeroWidth g message
  else (message, g)

/-- A scheduled debounced write (one setTimeout created inside Re).  cancelled
records a clearTimeout on it; fired records that its callback has run. -/
structure Timer where
  fireAt : Nat
  channel : Politeness
  text : String
  origMessage : String
  cancelled : Bool
  fired : Bool
deriving DecidableEq, Repr

/-- Scheduler state: announcer globals, every timer ever created (append-only,
with cancelled and fired flags), the per-channel timer handles N and R, and
the chronological log of live-region DOM writes (time, channel, text). -/
structure SchedState where
  ann : AnnouncerState
  timers : List Timer
  politeSlot : Option Nat
  assertiveSlot : Option Nat
  writes : List (Nat × Politeness × String)
deriving DecidableEq, Repr

/-- The timer handle of a channel (variables N and R in the source). -/
def slotFor (s : SchedState) : Politeness → Option Nat
  | .polite => s.politeSlot
  | .assertive => s.assertiveSlot

/-- Overwrite the timer handle of a channel. -/
def setSlotFor (s : SchedState) (ch : Politeness) (v : Option Nat) : SchedState :=
  match ch with
  | .polite => { s with politeSlot := v }
  | .assertive => { s with assertiveSlot := v }

/-- clearTimeout on the timer at index i. -/
def cancelTimer (ts : List Timer) (i : Nat) : List Timer :=
  match ts.get? i with
  | some t => ts.set i { t with cancelled := true }
  | none => ts

/-- Arrival of an announcement request (the synchronous part of UMD symbol Ie
together with Re and X).  If the elapsed time since the channel last
announcement is below ANNOUNCEMENT_DEBOUNCE_MS, Re cancels the channel current
timer and schedules a fresh one after the fixed delay; otherwise X clears the
region, waits REGION_CLEAR_DELAY_MS, writes the text, and the continuation of
Ie records the original message and completion time.  The clear, microtask
wait and write of De run without interleaving on the event loop (microtasks
drain before any other timer callback), so a completed write is one atomic
log entry here. -/
def announceArrive (s : SchedState) (now : Nat) (message : String) (force : Bool)
    (ch : Politeness) : SchedState :=
  let tg := resolveAnnounceText s.ann ch message force
  if now - lastTimestampFor s.ann ch < ANNOUNCEMENT_DEBOUNCE_MS then
    let ts1 := match slotFor s ch with
      | some i => cancelTimer s.timers i
      | none => s.timers
    let nt : Timer := { fireAt := now + ANNOUNCEMENT_DEBOUNCE_MS, channel := ch,
                        text := tg.1, origMessage := message,
                        cancelled := false, fired := false }
    setSlotFor { s with ann := tg.2, timers := ts1 ++ [nt] } ch (some ts1.length)
  else
    { s with ann := setLastFor tg.2 ch message (now + REGION_CLEAR_DELAY_MS),
             writes := s.writes ++ [(now + REGION_CLEAR_DELAY_MS, ch, tg.1)] }

/-- A scheduled timer callback runs (only a timer that was neither cancelled by
clearTimeout nor already fired can run): it nulls the channel handle, performs
the delayed X write, and resolves the awaiting Ie promise, whose continuation
records the original message and completion time. -/
def fireTimer (s : SchedState) (i : Nat) : SchedState :=
  match s.timers.get? i with
  | none => s
  | some t =>
    if t.cancelled || t.fired then s
    else
      let wTime := t.fireAt + REGION_CLEAR_DELAY_MS
      { ann := setLastFor s.ann t.channel t.origMessage wTime
        timers := s.timers.set i { t with fired := true }
        politeSlot := if t.channel = Politeness.polite then none else s.politeSlot
        assertiveSlot := if t.channel = Politeness.assertive then none else s.assertiveSlot
        writes := s.writes ++ [(wTime, t.channel, t.text)] }

/-- The timer at index i of a timer list exists and is still pending for
channel ch. -/
def pendingL (ts : List Timer) (ch : Politeness) (i : Nat) : Prop :=
  match ts.get? i with
  | some t => t.cancelled = false ∧ t.fired = false ∧ t.channel = ch
  | none => False

/-- The timer at index i exists and is still pending for channel ch. -/
def pendingAt (s : SchedState) (ch : Politeness) (i : Nat) : Prop :=
  pendingL s.timers ch i

/-- Scheduler invariant: the channel handle tracks exactly the pending timers;
in particular each channel has at most one outstanding scheduled write. -/
def SchedInv (s : SchedState) : Prop :=
  ∀ ch i, pendingAt s ch i ↔ slotFor s ch = some i

/-- Association-list lookup modelling Map.get. -/
def lookupA {β : Type} (m : List (String × β)) (k : String) : Option β :=
  match m with
  | [] => none
  | (k1, v) :: rest => if k1 = k then some v else lookupA rest k

/-- Association-list update modelling Map.set. -/
def setA {β : Type} (m : List (String × β)) (k : String) (v : β) : List (String × β) :=
  match m with
  | [] => [(k, v)]
  | (k1, v1) :: rest => if k1 = k then (k, v) :: rest else (k1, v1) :: setA rest k v

/-- Association-list removal modelling Map.delete. -/
def eraseA {β : Type} (m : List (String × β)) (k : String) : List (String × β) :=
  match m with
  | [] => []
  | (k1, v1) :: rest => if k1 = k then rest else (k1, v1) :: eraseA rest k

/-- Dedupe key (UMD symbol ie): category name, colon, exact message text. -/
def getDedupeKey (message : String) (t : FeedbackType) : String :=
  typeName t ++ ":" ++ message

/-- Content duplicate test (UMD symbol Be) over the recent-messages map. -/
def isDuplicate (recent : List (String × Nat)) (now : Nat) (message : String)
    (t : FeedbackType) : Bool :=
  match lookupA recent (getDedupeKey message t) with
  | none => false
  | some ts => decide (now - ts < DEDUPE_WINDOW_MS)

/-- Opportunistic purge (UMD symbol Ue): drop entries older than twice the
dedupe window. -/
def purgeOldEntries (recent : List (String × Nat)) (now : Nat) : List (String × Nat) :=
  recent.filter (fun p => !(decide (p.2 < now - DEDUPE_WINDOW_MS * 2)))

/-- Record a fresh dedupe timestamp and purge (UMD symbol Oe, which calls Ue). -/
def recordDedupe (recent : List (String × Nat)) (now : Nat) (message : String)
    (t : FeedbackType) : List (String × Nat) :=
  purgeOldEntries (setA recent (getDedupeKey message t) now) now

/-- Outcome of the deduplication and replacement engine (return shape of Ve). -/
structure DedupeDecision where
  shouldSkip : Bool
  replacedEvent : Option FeedbackEvent
  reason : String
deriving DecidableEq, Repr

/-- Content dedupe branch of Ve: skip only when force is not set and an
identical key is within the window. -/
def contentDedupeDecision (recent : List (String × Nat)) (now : Nat)
    (e : FeedbackEvent) : DedupeDecision :=
  if e.options.force = false ∧ isDuplicate recent now e.message e.type = true then
    { shouldSkip := true, replacedEvent := none, reason := "content_dedupe" }
  else
    { shouldSkip := false, replacedEvent := none, reason := "none" }

/-- Deduplication and replacement decision (UMD symbol Ve).  A defined,
non-empty options.id matching an active event always yields a replacement (the
old event is unregistered on the spot); otherwise the content dedupe check
runs.  Returns the decision and the updated active-events map. -/
def checkDuplicate (active : List (String × FeedbackEvent)) (recent : List (String × Nat))
    (now : Nat) (e : FeedbackEvent) : DedupeDecision × List (String × FeedbackEvent) :=
  match e.options.id with
  | some i =>
    if i = "" then (contentDedupeDecision recent now e, active)
    else
      match lookupA active i with
      | some old =>
          ({ shouldSkip := false, replacedEvent := some old, reason := "id_replacement" },
            eraseA active i)
      | none => (contentDedupeDecision recent now e, active)
  | none => (contentDedupeDecision recent now e, active)

/-- Focus permission lookup (UMD symbol je). -/
def canMoveFocusFor (t : FeedbackType) : Bool :=
  (FEEDBACK_SEMANTICS t).canMoveFocus

/-- Result of focus mediation (return shape of qe and Xe). -/
structure FocusResult where
  moved : Bool
  target : Option String
  elementName : Option String
  blockedReason : Option String
deriving DecidableEq, Repr

/-- A DOM element as far as focus mediation observes it: its computed
accessible name and whether a focus call lands on it. -/
structure DomElement where
  accessibleName : String
  focusSucceeds : Bool

/-- The document surface consulted by Xe. -/
structure DomModel where
  available : Bool
  lookup : String → Option DomElement

/-- The blocked reason produced when the policy bit refuses a focus move. -/
def focusBlockedMessage (t : FeedbackType) : String :=
  "Focus movement blocked: " ++ typeName t ++ " type cannot move focus"

/-- Focus attempt on a permitted category (UMD symbol Xe). -/
def tryMoveFocus (dom : DomModel) (sel : String) : FocusResult :=
  if dom.available = false then
    { moved := false, target := some sel, elementName := none,
      blockedReason := some "DOM not available" }
  else
    match dom.lookup sel with
    | none =>
        { moved := false, target := some sel, elementName := none,
          blockedReason := some ("Element not found: " ++ sel) }
    | some el =>
        if el.focusSucceeds then
          { moved := true, target := some sel,
            elementName := if el.accessibleName = "" then none else some el.accessibleName,
            blockedReason := none }
        else
          { moved := false, target := some sel,
            elementName := if el.accessibleName = "" then none else some el.accessibleName,
            blockedReason := some "Focus failed to move" }

/-- Focus mediation (UMD symbol qe): no target or empty target is a silent
no-op; a category whose canMoveFocus bit is false is refused unconditionally
with a reason citing the category; otherwise the DOM attempt runs. -/
def mediateFocus (e : FeedbackEvent) (dom : DomModel) : FocusResult :=
  match e.options.focus with
  | none => { moved := false, target := none, elementName := none, blockedReason := none }
  | some sel =>
    if sel = "" then
      { moved := false, target := none, elementName := none, blockedReason := none }
    else if canMoveFocusFor e.type = false then
      { moved := false, target := some sel, elementName := none,
        blockedReason := some (focusBlockedMessage e.type) }
    else tryMoveFocus dom sel

/-- Focus-moved suffix (UMD symbol Ye, default en locale). -/
def buildFocusAnnouncement (name : Option String) : String :=
  match name with
  | some n => if n = "" then "Focus moved." else "Focus moved to " ++ n ++ "."
  | none => "Focus moved."

/-- Attach the focus explanation to the announced text (UMD symbol Ge). -/
def appendFocusAnnouncement (message : String) (e : FeedbackEvent) (r : FocusResult) : String :=
  if e.options.explainFocus = true ∧ r.moved = true then
    message ++ " " ++ buildFocusAnnouncement r.elementName
  else message

/-- The timeout guard Me restricted to Nat (0 disables auto-dismiss; the
non-finite values it also rejects have no Nat representation). -/
def isTimeoutDisabled (n : Nat) : Bool :=
  decide (n = 0)

/-- Auto-dismiss scheduling (UMD symbol me): categories whose table bit is
false never schedule; otherwise the caller timeout, else the type default, is
used (the source chain also names the configured default timeout, but
DEFAULT_TIMEOUTS is total so it is never reached).  Returns the dismissal
delay, or none when no dismissal is scheduled. -/
def scheduleAutoDismiss (t : FeedbackType) (optTimeout : Option Nat)
    (configDefaultTimeout : Nat) : Option Nat :=
  if (FEEDBACK_SEMANTICS t).autoDismiss = false then none
  else
    let o := optTimeout.getD (DEFAULT_TIMEOUTS t)
    if isTimeoutDisabled o then none else some o

/-- One listener callback run under the per-listener try/catch of the emitter
(UMD symbol x): true when the callback completed, false when its exception was
caught (and logged). -/
def runListenerCaught {α : Type} (f : α → Except String Unit) (payload : α) : Bool :=
  match f payload with
  | Except.ok _ => true
  | Except.error _ => false

/-- Event emission (UMD symbol x): every per-type listener and then every
wildcard listener is invoked, each under its own try/catch, so the result has
one completion flag per registered listener. -/
def emitToListeners {α : Type} (typed : List (α → Except String Unit))
    (wildcard : List (α → Except String Unit)) (payload : α) : List Bool :=
  typed.map (fun f => runListenerCaught f payload) ++
    wildcard.map (fun f => runListenerCaught f payload)

/-- Core state threaded through the notification pipeline: the active-events
map A, the recent-messages dedupe map z, the announcement scheduler, the
chronological log of bus emissions (event name, payload event), and the ids of
currently shown visual items (keys of the visual map k). -/
structure CoreState where
  active : List (String × FeedbackEvent)
  recent : List (String × Nat)
  sched : SchedState
  emitted : List (String × FeedbackEvent)
  visualItems : List String
deriving Repr

/-- The notification pipeline (UMD symbol ht), sequential semantics: decide
dedupe or replacement, register and record, mediate focus, build the final
text, hand it to the announcement scheduler, optionally show a visual item,
and publish the lifecycle events.  Emissions are logged unconditionally (the
source calls x only when listeners are registered); for a coalesced pending
write the source defers the announced emission until the write resolves, which
this sequential model logs at submit time. -/
def processFeedback (cfgVisual : Bool) (st : CoreState) (now : Nat) (e : FeedbackEvent)
    (dom : DomModel) : CoreState × FeedbackEvent :=
  let p := checkDuplicate st.active st.recent now e
  if p.1.shouldSkip = true then
    let d := { e with deduped := true }
    ({ st with emitted := st.emitted ++ [("deduped", d)] }, d)
  else
    let isReplacement := p.1.replacedEvent.isSome
    let o := { e with replaced := isReplacement }
    let active2 := setA p.2 o.id o
    let recent2 := recordDedupe st.recent now o.message o.type
    let focusResult := mediateFocus o dom
    let finalMessage := appendFocusAnnouncement o.message o focusResult
    let sched2 := announceArrive st.sched now finalMessage o.options.force
      (politenessOfString o.ariaLive)
    let visual2 :=
      if cfgVisual = true then
        if st.visualItems.contains o.id then st.visualItems else st.visualItems ++ [o.id]
      else st.visualItems
    let label := if isReplacement then "replaced" else "announced"
    ({ active := active2, recent := recent2, sched := sched2
       emitted := (st.emitted ++ [(label, o)]) ++
         (if focusResult.moved then [("focusMoved", o)] else [])
       visualItems := visual2 }, o)

/-- Visual dismissal (UMD symbol dollar): only an id with a visual item is
dismissed; dismissal removes the visual item and unregisters the event from
the active map (ae).  Without a visual item the call is a no-op. -/
def dismissVisual (st : CoreState) (idStr : String) : CoreState :=
  if st.visualItems.contains idStr then
    { st with visualItems := st.visualItems.filter (fun j => !(decide (j = idStr)))
              active := eraseA st.active idStr }
  else st

/-- External operations driving the core. -/
inductive CoreOp where
  | submit (now : Nat) (message : String) (t : FeedbackType) (opts : FeedbackOptions)
      (generatedId : String) (dom : DomModel)
  | dismiss (idStr : String)

/-- One operation step. -/
def coreStep (cfgVisual : Bool) (st : CoreState) (op : CoreOp) : CoreState :=
  match op with
  | .submit now message t opts generatedId dom =>
      (processFeedback cfgVisual st now
        (createFeedbackEvent message t opts generatedId now) dom).1
  | .dismiss i => dismissVisual st i

/-- Run a sequence of operations. -/
def runOps (cfgVisual : Bool) (st : CoreState) (ops : List CoreOp) : CoreState :=
  ops.foldl (coreStep cfgVisual) st

/-- Number of emissions with a given event name. -/
def countLabel (label : String) (es : List (String × FeedbackEvent)) : Nat :=
  (es.filter (fun p => p.1 == label)).length

/-- The options carry no id, an empty id, or an id not currently active: the
situations in which Ve falls through to the content dedupe check. -/
def idFreeB (active : List (String × FeedbackEvent)) (opts : FeedbackOptions) : Bool :=
  match opts.id with
  | none => true
  | some j => (j == "") || (lookupA active j).isNone

/-- Options record with every field absent or unset. -/
def noOptions : FeedbackOptions :=
  { id := none, focus := none, explainFocus := false, force := false, timeout := none }

/-- A document with no matching elements. -/
def emptyDom : DomModel :=
  { available := true, lookup := fun _ => none }

/-- The scheduler state before any announcement. -/
def initialSched : SchedState :=
  { ann := { lastPoliteMessage := none, lastAssertiveMessage := none,
             lastPoliteTimestamp := 0, lastAssertiveTimestamp := 0, zwcCounter := 0 }
    timers := [], politeSlot := none, assertiveSlot := none, writes := [] }

/-- The core state before any call. -/
def initialCore : CoreState :=
  { active := [], recent := [], sched := initialSched, emitted := [], visualItems := [] }

/-- Options that supply the explicit empty-string id. -/
def emptyIdOptions : FeedbackOptions :=
  { id := some "", focus := none, explainFocus := false, force := false, timeout := none }

/-- First submit of the empty-id scenario: an event created with the explicit
id given as the empty string. -/
def emptyIdEventOne : FeedbackEvent :=
  createFeedbackEvent "Saved" .success emptyIdOptions "gen-1" 1000

/-- Core state after announcing the first empty-id event. -/
def emptyIdStateOne : CoreState :=
  (processFeedback false initialCore 1000 emptyIdEventOne emptyDom).1

/-- Second submit of the empty-id scenario, 100 ms later, with the same
message, category and explicit empty-string id. -/
def emptyIdEventTwo : FeedbackEvent :=
  createFeedbackEvent "Saved" .success emptyIdOptions "gen-2" 1100

/-! Shared lemmas about the association-list maps and the zero-width pool. -/

theorem lookupA_setA_self {β : Type} (m : List (String × β)) (k : String) (v : β) :
    lookupA (setA m k v) k = some v := by
  induction m with
  | nil => simp [setA, lookupA]
  | cons hd tl ih =>
      by_cases h : hd.1 = k
      · simp [setA, h, lookupA]
      · simp [setA, h, lookupA, ih]

theorem lookupA_setA_ne {β : Type} (m : List (String × β)) (k j : String) (v : β)
    (h : j ≠ k) : lookupA (setA m k v) j = lookupA m j := by
  have hkj : ¬ (k = j) := fun hh => h hh.symm
  induction m with
  | nil => simp [setA, lookupA, hkj]
  | cons hd tl ih =>
      by_cases hk : hd.1 = k
      · have hdj : ¬ (hd.1 = j) := by rw [hk]; exact hkj
        simp [setA, hk, lookupA, hkj, hdj]
      · simp [setA, hk, lookupA, ih]

theorem lookupA_eraseA_ne {β : Type} (m : List (String × β)) (k j : String)
    (h : j ≠ k) : lookupA (eraseA m k) j = lookupA m j := by
  have hkj : ¬ (k = j) := fun hh => h hh.symm
  induction m with
  | nil => simp [eraseA]
  | cons hd tl ih =>
      by_cases hk : hd.1 = k
      · have hdj : ¬ (hd.1 = j) := by rw [hk]; exact hkj
        simp [eraseA, hk, lookupA, hdj, hkj]
      · simp [eraseA, hk, lookupA, ih]

theorem purgeOldEntries_cons (hd : String × Nat) (tl : List (String × Nat)) (now : Nat) :
    purgeOldEntries (hd :: tl) now =
      if hd.2 < now - DEDUPE_WINDOW_MS * 2 then purgeOldEntries tl now
      else hd :: purgeOldEntries tl now := by
  by_cases h : hd.2 < now - DEDUPE_WINDOW_MS * 2 <;>
    simp [purgeOldEntries, List.filter_cons, h]

theorem lookupA_purge_kept (recent : List (String × Nat)) (now : Nat) (k : String)
    (ts : Nat) (h : lookupA recent k = some ts)
    (hk : ¬ ts < now - DEDUPE_WINDOW_MS * 2) :
    lookupA (purgeOldEntries recent now) k = some ts := by
  induction recent with
  | nil => simp [lookupA] at h
  | cons hd tl ih =>
      by_cases hh : hd.1 = k
      · simp [lookupA, hh] at h
        rw [purgeOldEntries_cons]
        rw [if_neg (by rw [h]; exact hk)]
        simp [lookupA, hh, h]
      · simp [lookupA, hh] at h
        rw [purgeOldEntries_cons]
        by_cases hkeep : hd.2 < now - DEDUPE_WINDOW_MS * 2
        · rw [if_pos hkeep]
          exact ih h
        · rw [if_neg hkeep]
          simp [lookupA, hh]
          exact ih h

theorem getZeroWidthChar_mem (n : Nat) : getZeroWidthChar n ∈ ZERO_WIDTH_CHARS := by
  have h : n % 4 = 0 ∨ n % 4 = 1 ∨ n % 4 = 2 ∨ n % 4 = 3 := by omega
  rcases h with h | h | h | h <;>
    simp [getZeroWidthChar, ZERO_WIDTH_CHARS, h]

theorem getZeroWidthChar_succ_ne (n : Nat) : getZeroWidthChar n ≠ getZeroWidthChar (n + 1) := by
  have h : n % 4 = 0 ∨ n % 4 = 1 ∨ n % 4 = 2 ∨ n % 4 = 3 := by omega
  have h1 : (n + 1) % 4 = (n % 4 + 1) % 4 := by omega
  rcases h with h | h | h | h <;>
    simp [getZeroWidthChar, ZERO_WIDTH_CHARS, h, h1]

/-! Claim theorems. -/

/-- C1: every FeedbackEvent copies role, aria-live politeness and priority
verbatim from the Semantic Policy Table regardless of caller options, the
focus permission and auto-dismiss bits used elsewhere are the table entries,
the table is exactly the fixed one (success, info and loading map to role
status with polite aria-live and no focus movement; warning and error map to
role alert with assertive aria-live and focus movement allowed), and the live
region created for the politeness level of each category carries exactly the
matching role and aria-live attributes. -/
theorem semantic_policy_fixed :
    (∀ (message : String) (t : FeedbackType) (opts : FeedbackOptions)
        (generatedId : String) (now : Nat),
      (createFeedbackEvent message t opts generatedId now).role = (FEEDBACK_SEMANTICS t).role ∧
      (createFeedbackEvent message t opts generatedId now).ariaLive =
        (FEEDBACK_SEMANTICS t).ariaLive ∧
      (createFeedbackEvent message t opts generatedId now).priority =
        (FEEDBACK_SEMANTICS t).priority) ∧
    (∀ (m1 m2 : String) (t : FeedbackType) (o1 o2 : FeedbackOptions)
        (g1 g2 : String) (n1 n2 : Nat),
      (createFeedbackEvent m1 t o1 g1 n1).role = (createFeedbackEvent m2 t o2 g2 n2).role ∧
      (createFeedbackEvent m1 t o1 g1 n1).ariaLive =
        (createFeedbackEvent m2 t o2 g2 n2).ariaLive ∧
      (createFeedbackEvent m1 t o1 g1 n1).priority =
        (createFeedbackEvent m2 t o2 g2 n2).priority) ∧
    (FEEDBACK_SEMANTICS .success =
      { role := "status", ariaLive := "polite", priority := "low",
        canMoveFocus := false, autoDismiss := true } ∧
     FEEDBACK_SEMANTICS .info =
      { role := "status", ariaLive := "polite", priority := "low",
        canMoveFocus := false, autoDismiss := true } ∧
     FEEDBACK_SEMANTICS .loading =
      { role := "status", ariaLive := "polite", priority := "low",
        canMoveFocus := false, autoDismiss := false } ∧
     FEEDBACK_SEMANTICS .warning =
      { role := "alert", ariaLive := "assertive", priority := "high",
        canMoveFocus := true, autoDismiss := true } ∧
     FEEDBACK_SEMANTICS .error =
      { role := "alert", ariaLive := "assertive", priority := "high",
        canMoveFocus := true, autoDismiss := false }) ∧
    (∀ (t : FeedbackType) (eid : String),
      (createRegion (politenessOfString (FEEDBACK_SEMANTICS t).ariaLive) eid).role =
        (FEEDBACK_SEMANTICS t).role ∧
      (createRegion (politenessOfString (FEEDBACK_SEMANTICS t).ariaLive) eid).ariaLive =
        (FEEDBACK_SEMANTICS t).ariaLive) ∧
    (∀ (eid : String),
      (createRegion .polite eid).role = "status" ∧
      (createRegion .polite eid).ariaLive = "polite" ∧
      (createRegion .assertive eid).role = "alert" ∧
      (createRegion .assertive eid).ariaLive = "assertive") ∧
    (∀ t, canMoveFocusFor t = (FEEDBACK_SEMANTICS t).canMoveFocus) := by
  refine ⟨?_, ?_, ?_, ?_, ?_, ?_⟩
  · intro message t opts generatedId now
    exact ⟨rfl, rfl, rfl⟩
  · intro m1 m2 t o1 o2 g1 g2 n1 n2
    exact ⟨rfl, rfl, rfl⟩
  · exact ⟨rfl, rfl, rfl, rfl, rfl⟩
  · intro t eid
    cases t <;>
      exact ⟨by simp [createRegion, politenessOfString, FEEDBACK_SEMANTICS],
             by simp [createRegion, politenessOfString, FEEDBACK_SEMANTICS, politenessName]⟩
  · intro eid
    refine ⟨by simp [createRegion], rfl, by simp [createRegion], rfl⟩
  · intro t
    rfl

/-- C8: error and loading events never schedule an auto-dismiss, for any
caller timeout and any configured default timeout; success, info and warning
events schedule auto-dismiss with the type-specific defaults (5000, 5000 and
8000 ms) whenever the caller supplies no timeout, again for any configured
default timeout. -/
theorem auto_dismiss_policy :
    (∀ (optTimeout : Option Nat) (cfgTimeout : Nat),
      scheduleAutoDismiss .error optTimeout cfgTimeout = none ∧
      scheduleAutoDismiss .loading optTimeout cfgTimeout = none) ∧
    (∀ (cfgTimeout : Nat),
      scheduleAutoDismiss .success none cfgTimeout = some 5000 ∧
      scheduleAutoDismiss .info none cfgTimeout = some 5000 ∧
      scheduleAutoDismiss .warning none cfgTimeout = some 8000) := by
  refine ⟨?_, ?_⟩
  · intro optTimeout cfgTimeout
    exact ⟨rfl, rfl⟩
  · intro cfgTimeout
    exact ⟨rfl, rfl, rfl⟩

/-- C9: emission invokes every per-type listener and every wildcard listener
exactly once, each under its own try/catch, so a listener that throws cannot
prevent delivery to any other listener and the emitting operation always
completes: the result has one entry per registered listener, and the entry at
each position is determined by that listener alone. -/
theorem listener_exception_isolation :
    (∀ (α : Type) (typed wildcard : List (α → Except String Unit)) (payload : α),
      (emitToListeners typed wildcard payload).length = typed.length + wildcard.length) ∧
    (∀ (α : Type) (typed wildcard : List (α → Except String Unit)) (payload : α)
        (i : Nat) (h : i < typed.length),
      (emitToListeners typed wildcard payload).get? i =
        some (runListenerCaught (typed.get ⟨i, h⟩) payload)) ∧
    (∀ (α : Type) (typed wildcard : List (α → Except String Unit)) (payload : α)
        (i : Nat) (h : i < wildcard.length),
      (emitToListeners typed wildcard payload).get? (typed.length + i) =
        some (runListenerCaught (wildcard.get ⟨i, h⟩) payload)) := by
  refine ⟨?_, ?_, ?_⟩
  · intro α typed wildcard payload
    simp [emitToListeners]
  · intro α typed wildcard payload i h
    rw [emitToListeners, List.get?_eq_getElem?,
      List.getElem?_append_left (by simpa using h)]
    simp [List.getElem?_map, List.get_eq_getElem]
    exact ⟨_, List.getElem?_eq_getElem h, rfl⟩
  · intro α typed wildcard payload i h
    rw [emitToListeners, List.get?_eq_getElem?,
      List.getElem?_append_right (by simp)]
    simp [List.getElem?_map, List.get_eq_getElem]
    exact ⟨_, List.getElem?_eq_getElem h, rfl⟩

/-- Witness for C9: with a first listener that throws and a second that does
not, the second listener still receives the emission. -/
theorem listener_exception_isolation_witness :
    (1 : Nat) < 2 ∧
    (emitToListeners
        [fun _ => Except.error "boom", fun _ => Except.ok ()]
        ([] : List (Nat → Except String Unit)) 0).get? 1 = some true := by
  refine ⟨by decide, ?_⟩
  exact listener_exception_isolation.2.1 Nat
    [fun _ => Except.error "boom", fun _ => Except.ok ()] [] 0 1 (by decide)

/-- C6: a submit on a success, info or loading event that supplies a non-empty
focus target selector never moves focus, the result does not even depend on
the document, and the blocked reason cites the category. -/
theorem low_priority_focus_blocked :
    ∀ (e : FeedbackEvent) (sel : String) (dom dom2 : DomModel),
      (e.type = .success ∨ e.type = .info ∨ e.type = .loading) →
      e.options.focus = some sel → sel ≠ "" →
      mediateFocus e dom =
        { moved := false, target := some sel, elementName := none,
          blockedReason := some (focusBlockedMessage e.type) } ∧
      (mediateFocus e dom).moved = false ∧
      mediateFocus e dom = mediateFocus e dom2 ∧
      (∃ pre post, focusBlockedMessage e.type = pre ++ typeName e.type ++ post) := by
  intro e sel dom dom2 ht hf hs
  have hcan : canMoveFocusFor e.type = false := by
    rcases ht with h | h | h <;> rw [h] <;> rfl
  have hmain : mediateFocus e dom =
      { moved := false, target := some sel, elementName := none,
        blockedReason := some (focusBlockedMessage e.type) } := by
    simp [mediateFocus, hf, hs, hcan]
  have hmain2 : mediateFocus e dom2 =
      { moved := false, target := some sel, elementName := none,
        blockedReason := some (focusBlockedMessage e.type) } := by
    simp [mediateFocus, hf, hs, hcan]
  refine ⟨hmain, by rw [hmain], by rw [hmain, hmain2], ?_⟩
  exact ⟨"Focus movement blocked: ", " type cannot move focus", rfl⟩

/-- Witness for C6: a success event with focus target requested. -/
theorem low_priority_focus_blocked_witness :
    mediateFocus
        (createFeedbackEvent "Done" .success
          { id := none, focus := some "#save", explainFocus := false,
            force := false, timeout := none } "g" 5) emptyDom =
      { moved := false, target := some "#save", elementName := none,
        blockedReason := some (focusBlockedMessage .success) } := by
  exact (low_priority_focus_blocked
    (createFeedbackEvent "Done" .success
      { id := none, focus := some "#save", explainFocus := false,
        force := false, timeout := none } "g" 5)
    "#save" emptyDom emptyDom (Or.inl rfl) rfl (by decide)).1

/-- C2 counterexample: an explicit empty-string id is registered by event
creation but ignored by the replacement branch of the decision engine, so a
second submit whose options.id equals the id of the currently active event is
deduplicated, not replaced. -/
theorem empty_id_replacement_counterexample :
    emptyIdEventTwo.options.id = some "" ∧
    (∃ ev : FeedbackEvent, lookupA emptyIdStateOne.active "" = some ev ∧ ev.id = "") ∧
    (checkDuplicate emptyIdStateOne.active emptyIdStateOne.recent 1100
        emptyIdEventTwo).1.shouldSkip = true ∧
    (checkDuplicate emptyIdStateOne.active emptyIdStateOne.recent 1100
        emptyIdEventTwo).1.reason = "content_dedupe" ∧
    (checkDuplicate emptyIdStateOne.active emptyIdStateOne.recent 1100
        emptyIdEventTwo).1.replacedEvent = none := by
  refine ⟨rfl, ⟨{ emptyIdEventOne with replaced := false }, by decide, by decide⟩,
    by decide, by decide, by decide⟩

/-- C2 as amended: for every submit call whose options.id is defined,
non-empty and equal to the id of a currently active event, the decision is
always a replacement (never a duplicate-skip), regardless of message equality
and regardless of options.force; and options.force bypasses only the content
dedupe, never producing a skip. -/
theorem nonempty_id_always_replaces :
    (∀ (active : List (String × FeedbackEvent)) (recent : List (String × Nat))
        (now : Nat) (e : FeedbackEvent) (i : String) (old : FeedbackEvent),
      e.options.id = some i → i ≠ "" → lookupA active i = some old →
      (checkDuplicate active recent now e).1 =
        { shouldSkip := false, replacedEvent := some old, reason := "id_replacement" }) ∧
    (∀ (active : List (String × FeedbackEvent)) (recent : List (String × Nat))
        (now : Nat) (e : FeedbackEvent),
      e.options.force = true →
      (checkDuplicate active recent now e).1.shouldSkip = false) := by
  refine ⟨?_, ?_⟩
  · intro active recent now e i old hid hne hlook
    simp [checkDuplicate, hid, hne, hlook]
  · intro active recent now e hforce
    have hcontent : (contentDedupeDecision recent now e).shouldSkip = false := by
      simp [contentDedupeDecision, hforce]
    cases hid : e.options.id with
    | none => simpa [checkDuplicate, hid] using hcontent
    | some i =>
        by_cases hi : i = ""
        · simpa [checkDuplicate, hid, hi] using hcontent
        · cases hlook : lookupA active i with
          | none => simpa [checkDuplicate, hid, hi, hlook] using hcontent
          | some old => simp [checkDuplicate, hid, hi, hlook]

/-- Witness for the amended C2: a forced submit with a different message and
an active event under the same non-empty id is replaced. -/
theorem nonempty_id_always_replaces_witness :
    (checkDuplicate [("job", emptyIdEventOne)] [] 50
        (createFeedbackEvent "Other" .error
          { id := some "job", focus := none, explainFocus := false,
            force := true, timeout := none } "g9" 50)).1 =
      { shouldSkip := false, replacedEvent := some emptyIdEventOne,
        reason := "id_replacement" } := by
  exact nonempty_id_always_replaces.1 [("job", emptyIdEventOne)] [] 50
    (createFeedbackEvent "Other" .error
      { id := some "job", focus := none, explainFocus := false,
        force := true, timeout := none } "g9" 50)
    "job" emptyIdEventOne rfl (by decide) (by decide)

theorem setSlotFor_writes (x : SchedState) (ch : Politeness) (v : Option Nat) :
    (setSlotFor x ch v).writes = x.writes := by
  cases ch <;> rfl

theorem setSlotFor_timers (x : SchedState) (ch : Politeness) (v : Option Nat) :
    (setSlotFor x ch v).timers = x.timers := by
  cases ch <;> rfl

theorem setSlotFor_ann (x : SchedState) (ch : Politeness) (v : Option Nat) :
    (setSlotFor x ch v).ann = x.ann := by
  cases ch <;> rfl

theorem slotFor_setSlotFor_self (x : SchedState) (ch : Politeness) (v : Option Nat) :
    slotFor (setSlotFor x ch v) ch = v := by
  cases ch <;> rfl

theorem slotFor_setSlotFor_ne (x : SchedState) (ch ch2 : Politeness) (v : Option Nat)
    (h : ch2 ≠ ch) : slotFor (setSlotFor x ch v) ch2 = slotFor x ch2 := by
  cases ch <;> cases ch2 <;> first | rfl | exact absurd rfl h

theorem announceArrive_pending (s : SchedState) (now : Nat) (message : String)
    (force : Bool) (ch : Politeness)
    (h : now - lastTimestampFor s.ann ch < ANNOUNCEMENT_DEBOUNCE_MS) :
    announceArrive s now message force ch =
      setSlotFor
        { s with ann := (resolveAnnounceText s.ann ch message force).2
                 timers := (match slotFor s ch with
                            | some i => cancelTimer s.timers i
                            | none => s.timers) ++
                   [{ fireAt := now + ANNOUNCEMENT_DEBOUNCE_MS, channel := ch,
                      text := (resolveAnnounceText s.ann ch message force).1,
                      origMessage := message, cancelled := false, fired := false }] }
        ch (some (match slotFor s ch with
                  | some i => cancelTimer s.timers i
                  | none => s.timers).length) := by
  rw [announceArrive, if_pos h]

theorem announceArrive_direct (s : SchedState) (now : Nat) (message : String)
    (force : Bool) (ch : Politeness)
    (h : ¬ (now - lastTimestampFor s.ann ch < ANNOUNCEMENT_DEBOUNCE_MS)) :
    announceArrive s now message force ch =
      { s with ann := setLastFor (resolveAnnounceText s.ann ch message force).2 ch message
                 (now + REGION_CLEAR_DELAY_MS)
               writes := s.writes ++ [(now + REGION_CLEAR_DELAY_MS, ch,
                 (resolveAnnounceText s.ann ch message force).1)] } := by
  rw [announceArrive, if_neg h]

/-- C7 counterexample: with the channel last announced at 1000 and a request
arriving at 1040 (elapsed 40 ms, below the 100 ms threshold), the write is
scheduled for 1140 — a full fixed 100 ms delay — not for 1100 as a delay equal
to the remaining spacing (threshold minus elapsed) would give. -/
theorem debounce_delay_counterexample :
    (1040 - 1000 < ANNOUNCEMENT_DEBOUNCE_MS) = True ∧
    (announceArrive { ann := { lastPoliteMessage := none, lastAssertiveMessage := none,
                               lastPoliteTimestamp := 1000, lastAssertiveTimestamp := 0,
                               zwcCounter := 0 }
                      timers := [], politeSlot := none, assertiveSlot := none, writes := [] }
        1040 "Working" false .polite).timers.map (fun t => t.fireAt) = [1140] ∧
    (announceArrive { ann := { lastPoliteMessage := none, lastAssertiveMessage := none,
                               lastPoliteTimestamp := 1000, lastAssertiveTimestamp := 0,
                               zwcCounter := 0 }
                      timers := [], politeSlot := none, assertiveSlot := none, writes := [] }
        1040 "Working" false .polite).writes = [] ∧
    (1140 : Nat) ≠ 1040 + (ANNOUNCEMENT_DEBOUNCE_MS - (1040 - 1000)) := by
  refine ⟨by decide, by decide, by decide, by decide⟩

/-- C7 as amended: when the elapsed time since the channel last announcement
is below the minimum spacing threshold, the write is scheduled after the fixed
full threshold delay ANNOUNCEMENT_DEBOUNCE_MS (not after the remaining
spacing), with no immediate write; otherwise the request proceeds directly to
writing. -/
theorem debounce_uses_full_fixed_delay :
    (∀ (s : SchedState) (now : Nat) (message : String) (force : Bool) (ch : Politeness),
      now - lastTimestampFor s.ann ch < ANNOUNCEMENT_DEBOUNCE_MS →
      (announceArrive s now message force ch).writes = s.writes ∧
      ∃ tl T, (announceArrive s now message force ch).timers = tl ++ [T] ∧
        T.fireAt = now + ANNOUNCEMENT_DEBOUNCE_MS ∧ T.channel = ch ∧
        T.cancelled = false ∧ T.fired = false) ∧
    (∀ (s : SchedState) (now : Nat) (message : String) (force : Bool) (ch : Politeness),
      ¬ (now - lastTimestampFor s.ann ch < ANNOUNCEMENT_DEBOUNCE_MS) →
      (announceArrive s now message force ch).timers = s.timers ∧
      ∃ txt, (announceArrive s now message force ch).writes =
        s.writes ++ [(now + REGION_CLEAR_DELAY_MS, ch, txt)]) := by
  refine ⟨?_, ?_⟩
  · intro s now message force ch h
    rw [announceArrive_pending s now message force ch h]
    refine ⟨setSlotFor_writes _ _ _, ?_⟩
    refine ⟨(match slotFor s ch with
             | some i => cancelTimer s.timers i
             | none => s.timers),
            { fireAt := now + ANNOUNCEMENT_DEBOUNCE_MS, channel := ch,
              text := (resolveAnnounceText s.ann ch message force).1,
              origMessage := message, cancelled := false, fired := false },
            ?_, rfl, rfl, rfl, rfl⟩
    rw [setSlotFor_timers]
  · intro s now message force ch h
    rw [announceArrive_direct s now message force ch h]
    exact ⟨rfl, _, rfl⟩

/-- Witness for the amended C7: one pending and one direct arrival. -/
theorem debounce_uses_full_fixed_delay_witness :
    ((announceArrive initialSched 40 "Hi" false .polite).writes = [] ∧
      ∃ tl T, (announceArrive initialSched 40 "Hi" false .polite).timers = tl ++ [T] ∧
        T.fireAt = 40 + ANNOUNCEMENT_DEBOUNCE_MS ∧ T.channel = .polite ∧
        T.cancelled = false ∧ T.fired = false) ∧
    ((announceArrive initialSched 300 "Hi" false .polite).timers = [] ∧
      ∃ txt, (announceArrive initialSched 300 "Hi" false .polite).writes =
        [] ++ [(300 + REGION_CLEAR_DELAY_MS, .polite, txt)]) := by
  constructor
  · exact debounce_uses_full_fixed_delay.1 initialSched 40 "Hi" false .polite (by decide)
  · exact debounce_uses_full_fixed_delay.2 initialSched 300 "Hi" false .polite (by decide)



theorem checkDuplicate_idFree (active : List (String × FeedbackEvent))
    (recent : List (String × Nat)) (now : Nat) (e : FeedbackEvent)
    (h : idFreeB active e.options = true) :
    checkDuplicate active recent now e = (contentDedupeDecision recent now e, active) := by
  cases hid : e.options.id with
  | none => simp [checkDuplicate, hid]
  | some j =>
      rw [idFreeB, hid] at h
      by_cases hj : j = ""
      · simp [checkDuplicate, hid, hj]
      · simp [hj] at h
        simp [checkDuplicate, hid, hj, h]

theorem contentDecision_fresh (recent : List (String × Nat)) (now : Nat) (e : FeedbackEvent)
    (h : lookupA recent (getDedupeKey e.message e.type) = none) :
    contentDedupeDecision recent now e =
      { shouldSkip := false, replacedEvent := none, reason := "none" } := by
  simp [contentDedupeDecision, isDuplicate, h]

theorem contentDecision_dup (recent : List (String × Nat)) (now : Nat) (e : FeedbackEvent)
    (ts : Nat) (hf : e.options.force = false)
    (h : lookupA recent (getDedupeKey e.message e.type) = some ts)
    (hw : now - ts < DEDUPE_WINDOW_MS) :
    contentDedupeDecision recent now e =
      { shouldSkip := true, replacedEvent := none, reason := "content_dedupe" } := by
  simp [contentDedupeDecision, isDuplicate, h, hf, hw]

theorem processFeedback_skip (cfg : Bool) (st : CoreState) (now : Nat) (e : FeedbackEvent)
    (dom : DomModel)
    (h : (checkDuplicate st.active st.recent now e).1.shouldSkip = true) :
    processFeedback cfg st now e dom =
      ({ st with emitted := st.emitted ++ [("deduped", { e with deduped := true })] },
        { e with deduped := true }) := by
  simp only [processFeedback, h, if_pos]

theorem processFeedback_proceed (cfg : Bool) (st : CoreState) (now : Nat) (e : FeedbackEvent)
    (dom : DomModel) (dec : DedupeDecision) (active1 : List (String × FeedbackEvent))
    (h : checkDuplicate st.active st.recent now e = (dec, active1))
    (hskip : dec.shouldSkip = false) :
    processFeedback cfg st now e dom =
      ({ active := setA active1 e.id { e with replaced := dec.replacedEvent.isSome }
         recent := recordDedupe st.recent now e.message e.type
         sched := announceArrive st.sched now
           (appendFocusAnnouncement e.message { e with replaced := dec.replacedEvent.isSome }
             (mediateFocus { e with replaced := dec.replacedEvent.isSome } dom))
           e.options.force (politenessOfString e.ariaLive)
         emitted := (st.emitted ++
             [((if dec.replacedEvent.isSome then "replaced" else "announced"),
               { e with replaced := dec.replacedEvent.isSome })]) ++
           (if (mediateFocus { e with replaced := dec.replacedEvent.isSome } dom).moved then
             [("focusMoved", { e with replaced := dec.replacedEvent.isSome })] else [])
         visualItems := if cfg = true then
             (if st.visualItems.contains e.id then st.visualItems else st.visualItems ++ [e.id])
           else st.visualItems },
        { e with replaced := dec.replacedEvent.isSome }) := by
  simp only [processFeedback, h, hskip]
  simp



theorem countLabel_append (l : String) (a b : List (String × FeedbackEvent)) :
    countLabel l (a ++ b) = countLabel l a + countLabel l b := by
  simp [countLabel, List.filter_append]

theorem countLabel_single_eq (l : String) (ev : FeedbackEvent) :
    countLabel l [(l, ev)] = 1 := by
  simp [countLabel]

theorem countLabel_single_ne (l l2 : String) (ev : FeedbackEvent) (h : l2 ≠ l) :
    countLabel l [(l2, ev)] = 0 := by
  simp [countLabel, h]

/-- C3: two submit calls with the same category and exact message text, each
with no explicit id or a fresh id and the second without force, where the
second arrives within the dedupe window of the first recorded key, yield
exactly one additional announced emission and one additional deduped emission,
the second returned event is flagged deduped, and the skipped call performs no
live-region write (the whole scheduler state is untouched by it). -/
theorem content_dedupe_window :
    ∀ (cfg : Bool) (st0 : CoreState) (m : String) (t : FeedbackType) (t1 t2 : Nat)
      (opts1 opts2 : FeedbackOptions) (g1 g2 : String) (dom1 dom2 : DomModel),
      lookupA st0.recent (getDedupeKey m t) = none →
      idFreeB st0.active opts1 = true →
      idFreeB ((processFeedback cfg st0 t1 (createFeedbackEvent m t opts1 g1 t1) dom1).1).active
        opts2 = true →
      opts2.force = false →
      t2 - t1 < DEDUPE_WINDOW_MS →
      countLabel "announced"
          ((processFeedback cfg ((processFeedback cfg st0 t1 (createFeedbackEvent m t opts1 g1 t1) dom1).1)
              t2 (createFeedbackEvent m t opts2 g2 t2) dom2).1).emitted =
        countLabel "announced" st0.emitted + 1 ∧
      countLabel "deduped"
          ((processFeedback cfg ((processFeedback cfg st0 t1 (createFeedbackEvent m t opts1 g1 t1) dom1).1)
              t2 (createFeedbackEvent m t opts2 g2 t2) dom2).1).emitted =
        countLabel "deduped" st0.emitted + 1 ∧
      (processFeedback cfg ((processFeedback cfg st0 t1 (createFeedbackEvent m t opts1 g1 t1) dom1).1)
          t2 (createFeedbackEvent m t opts2 g2 t2) dom2).2.deduped = true ∧
      ((processFeedback cfg ((processFeedback cfg st0 t1 (createFeedbackEvent m t opts1 g1 t1) dom1).1)
          t2 (createFeedbackEvent m t opts2 g2 t2) dom2).1).sched =
        ((processFeedback cfg st0 t1 (createFeedbackEvent m t opts1 g1 t1) dom1).1).sched := by
  intro cfg st0 m t t1 t2 opts1 opts2 g1 g2 dom1 dom2 hkey hid1 hid2 hforce2 hwin
  have hdec1 : checkDuplicate st0.active st0.recent t1 (createFeedbackEvent m t opts1 g1 t1) =
      ({ shouldSkip := false, replacedEvent := none, reason := "none" }, st0.active) := by
    rw [checkDuplicate_idFree st0.active st0.recent t1 _ hid1]
    rw [contentDecision_fresh st0.recent t1 _ hkey]
  have hp1 := processFeedback_proceed cfg st0 t1 (createFeedbackEvent m t opts1 g1 t1) dom1
    { shouldSkip := false, replacedEvent := none, reason := "none" } st0.active hdec1 rfl
  have hlook1 : lookupA ((processFeedback cfg st0 t1 (createFeedbackEvent m t opts1 g1 t1) dom1).1).recent
      (getDedupeKey m t) = some t1 := by
    rw [hp1]
    show lookupA (recordDedupe st0.recent t1 m t) (getDedupeKey m t) = some t1
    rw [recordDedupe]
    exact lookupA_purge_kept _ _ _ _ (lookupA_setA_self _ _ _) (by omega)
  have hdec2 : checkDuplicate
      ((processFeedback cfg st0 t1 (createFeedbackEvent m t opts1 g1 t1) dom1).1).active
      ((processFeedback cfg st0 t1 (createFeedbackEvent m t opts1 g1 t1) dom1).1).recent
      t2 (createFeedbackEvent m t opts2 g2 t2) =
      ({ shouldSkip := true, replacedEvent := none, reason := "content_dedupe" },
        ((processFeedback cfg st0 t1 (createFeedbackEvent m t opts1 g1 t1) dom1).1).active) := by
    rw [checkDuplicate_idFree _ _ _ _ hid2]
    rw [contentDecision_dup _ t2 _ t1 hforce2 hlook1 hwin]
  have hp2 := processFeedback_skip cfg
    ((processFeedback cfg st0 t1 (createFeedbackEvent m t opts1 g1 t1) dom1).1)
    t2 (createFeedbackEvent m t opts2 g2 t2) dom2 (by rw [hdec2])
  have hem1 : ((processFeedback cfg st0 t1 (createFeedbackEvent m t opts1 g1 t1) dom1).1).emitted =
      (st0.emitted ++ [("announced", { createFeedbackEvent m t opts1 g1 t1 with replaced := false })]) ++
        (if (mediateFocus { createFeedbackEvent m t opts1 g1 t1 with replaced := false } dom1).moved then
          [("focusMoved", { createFeedbackEvent m t opts1 g1 t1 with replaced := false })] else []) := by
    rw [hp1]
    rfl
  refine ⟨?_, ?_, ?_, ?_⟩
  · rw [hp2]
    show countLabel "announced"
        (((processFeedback cfg st0 t1 (createFeedbackEvent m t opts1 g1 t1) dom1).1).emitted ++
          [("deduped", _)]) = countLabel "announced" st0.emitted + 1
    rw [countLabel_append, hem1, countLabel_append, countLabel_append,
      countLabel_single_eq, countLabel_single_ne _ "deduped" _ (by decide)]
    have hfm : countLabel "announced"
        (if (mediateFocus { createFeedbackEvent m t opts1 g1 t1 with replaced := false } dom1).moved then
          [("focusMoved", { createFeedbackEvent m t opts1 g1 t1 with replaced := false })] else []) = 0 := by
      split
      · exact countLabel_single_ne _ "focusMoved" _ (by decide)
      · simp [countLabel]
    rw [hfm]
  · rw [hp2]
    show countLabel "deduped"
        (((processFeedback cfg st0 t1 (createFeedbackEvent m t opts1 g1 t1) dom1).1).emitted ++
          [("deduped", _)]) = countLabel "deduped" st0.emitted + 1
    rw [countLabel_append, hem1, countLabel_append, countLabel_append,
      countLabel_single_eq, countLabel_single_ne _ "announced" _ (by decide)]
    have hfm : countLabel "deduped"
        (if (mediateFocus { createFeedbackEvent m t opts1 g1 t1 with replaced := false } dom1).moved then
          [("focusMoved", { createFeedbackEvent m t opts1 g1 t1 with replaced := false })] else []) = 0 := by
      split
      · exact countLabel_single_ne _ "focusMoved" _ (by decide)
      · simp [countLabel]
    rw [hfm]
  · rw [hp2]
  · rw [hp2]


/-- Witness for C3: the same success message submitted at 1000 and 1200 ms. -/
theorem content_dedupe_window_witness :
    countLabel "announced"
        ((processFeedback false
            ((processFeedback false initialCore 1000
                (createFeedbackEvent "Saved" .success noOptions "g1" 1000) emptyDom).1)
            1200 (createFeedbackEvent "Saved" .success noOptions "g2" 1200) emptyDom).1).emitted =
      countLabel "announced" initialCore.emitted + 1 ∧
    countLabel "deduped"
        ((processFeedback false
            ((processFeedback false initialCore 1000
                (createFeedbackEvent "Saved" .success noOptions "g1" 1000) emptyDom).1)
            1200 (createFeedbackEvent "Saved" .success noOptions "g2" 1200) emptyDom).1).emitted =
      countLabel "deduped" initialCore.emitted + 1 ∧
    (processFeedback false
        ((processFeedback false initialCore 1000
            (createFeedbackEvent "Saved" .success noOptions "g1" 1000) emptyDom).1)
        1200 (createFeedbackEvent "Saved" .success noOptions "g2" 1200) emptyDom).2.deduped = true ∧
    ((processFeedback false
        ((processFeedback false initialCore 1000
            (createFeedbackEvent "Saved" .success noOptions "g1" 1000) emptyDom).1)
        1200 (createFeedbackEvent "Saved" .success noOptions "g2" 1200) emptyDom).1).sched =
      ((processFeedback false initialCore 1000
          (createFeedbackEvent "Saved" .success noOptions "g1" 1000) emptyDom).1).sched := by
  exact content_dedupe_window false initialCore "Saved" .success 1000 1200
    noOptions noOptions "g1" "g2" emptyDom emptyDom rfl rfl (by decide) rfl (by decide)



theorem pendingL_lt (ts : List Timer) (ch : Politeness) (i : Nat)
    (h : pendingL ts ch i) : i < ts.length := by
  rw [pendingL] at h
  by_contra hn
  rw [List.get?_eq_none.mpr (by omega)] at h
  exact h

theorem pendingL_append_lt (ts : List Timer) (nt : Timer) (ch : Politeness) (i : Nat)
    (h : i < ts.length) : pendingL (ts ++ [nt]) ch i ↔ pendingL ts ch i := by
  rw [pendingL, pendingL, List.get?_eq_getElem?, List.get?_eq_getElem?,
    List.getElem?_append_left h]

theorem pendingL_append_len (ts : List Timer) (nt : Timer) (ch : Politeness) :
    pendingL (ts ++ [nt]) ch ts.length ↔
      (nt.cancelled = false ∧ nt.fired = false ∧ nt.channel = ch) := by
  rw [pendingL, List.get?_eq_getElem?]
  simp

theorem pendingL_append_gt (ts : List Timer) (nt : Timer) (ch : Politeness) (i : Nat)
    (h : ts.length < i) : ¬ pendingL (ts ++ [nt]) ch i := by
  rw [pendingL, List.get?_eq_none.mpr (by simp; omega)]
  exact id

theorem pendingL_set_ne (ts : List Timer) (a : Timer) (ch : Politeness) (i j : Nat)
    (h : j ≠ i) : pendingL (ts.set i a) ch j ↔ pendingL ts ch j := by
  rw [pendingL, pendingL, List.get?_eq_getElem?, List.get?_eq_getElem?,
    List.getElem?_set_ne (fun hh => h hh.symm)]

theorem pendingL_set_cancelled (ts : List Timer) (t : Timer) (ch : Politeness) (i : Nat)
    (hget : ts.get? i = some t) :
    ¬ pendingL (ts.set i { t with cancelled := true }) ch i := by
  have hi : i < ts.length := by
    by_contra hn
    rw [List.get?_eq_none.mpr (by omega)] at hget
    exact Option.noConfusion hget
  rw [pendingL]
  rw [show (ts.set i { t with cancelled := true }).get? i = some { t with cancelled := true } by
    simp [List.get?_eq_getElem?, List.getElem?_set, hi]]
  intro hp
  exact Bool.noConfusion hp.1

theorem pendingL_set_fired (ts : List Timer) (t : Timer) (ch : Politeness) (i : Nat)
    (hget : ts.get? i = some t) :
    ¬ pendingL (ts.set i { t with fired := true }) ch i := by
  have hi : i < ts.length := by
    by_contra hn
    rw [List.get?_eq_none.mpr (by omega)] at hget
    exact Option.noConfusion hget
  rw [pendingL]
  rw [show (ts.set i { t with fired := true }).get? i = some { t with fired := true } by
    simp [List.get?_eq_getElem?, List.getElem?_set, hi]]
  intro hp
  exact Bool.noConfusion hp.2.1

theorem announceArrive_pending_noslot (s : SchedState) (now : Nat) (message : String)
    (force : Bool) (ch : Politeness)
    (h : now - lastTimestampFor s.ann ch < ANNOUNCEMENT_DEBOUNCE_MS)
    (hslot : slotFor s ch = none) :
    announceArrive s now message force ch =
      setSlotFor
        { s with ann := (resolveAnnounceText s.ann ch message force).2
                 timers := s.timers ++
                   [{ fireAt := now + ANNOUNCEMENT_DEBOUNCE_MS, channel := ch,
                      text := (resolveAnnounceText s.ann ch message force).1,
                      origMessage := message, cancelled := false, fired := false }] }
        ch (some s.timers.length) := by
  rw [announceArrive_pending s now message force ch h, hslot]

theorem announceArrive_pending_slot (s : SchedState) (now : Nat) (message : String)
    (force : Bool) (ch : Politeness) (j : Nat)
    (h : now - lastTimestampFor s.ann ch < ANNOUNCEMENT_DEBOUNCE_MS)
    (hslot : slotFor s ch = some j) :
    announceArrive s now message force ch =
      setSlotFor
        { s with ann := (resolveAnnounceText s.ann ch message force).2
                 timers := cancelTimer s.timers j ++
                   [{ fireAt := now + ANNOUNCEMENT_DEBOUNCE_MS, channel := ch,
                      text := (resolveAnnounceText s.ann ch message force).1,
                      origMessage := message, cancelled := false, fired := false }] }
        ch (some (cancelTimer s.timers j).length) := by
  rw [announceArrive_pending s now message force ch h, hslot]

theorem schedInv_announceArrive (s : SchedState) (now : Nat) (message : String)
    (force : Bool) (ch : Politeness) (hInv : SchedInv s) :
    SchedInv (announceArrive s now message force ch) := by
  by_cases h : now - lastTimestampFor s.ann ch < ANNOUNCEMENT_DEBOUNCE_MS
  · cases hslot : slotFor s ch with
    | none =>
        rw [announceArrive_pending_noslot s now message force ch h hslot]
        have hnone : ∀ k, ¬ pendingAt s ch k := by
          intro k hp
          have hk := (hInv ch k).mp hp
          rw [hslot] at hk
          exact Option.noConfusion hk
        intro ch2 i
        rw [pendingAt, setSlotFor_timers]
        constructor
        · intro hp
          rcases Nat.lt_trichotomy i s.timers.length with hi | hi | hi
          · rw [pendingL_append_lt _ _ _ _ hi] at hp
            by_cases hch : ch2 = ch
            · subst hch
              exact absurd hp (hnone i)
            · rw [slotFor_setSlotFor_ne _ _ _ _ hch]
              exact (hInv ch2 i).mp hp
          · subst hi
            rw [pendingL_append_len] at hp
            have hc : ch = ch2 := hp.2.2
            subst hc
            rw [slotFor_setSlotFor_self]
          · exact absurd hp (pendingL_append_gt _ _ _ _ hi)
        · intro hs
          by_cases hch : ch2 = ch
          · subst hch
            rw [slotFor_setSlotFor_self] at hs
            have hi := Option.some.inj hs
            subst hi
            rw [pendingL_append_len]
            exact ⟨rfl, rfl, rfl⟩
          · rw [slotFor_setSlotFor_ne _ _ _ _ hch] at hs
            have hp := (hInv ch2 i).mpr hs
            have hi := pendingL_lt _ _ _ hp
            rw [pendingL_append_lt _ _ _ _ hi]
            exact hp
    | some j =>
        rw [announceArrive_pending_slot s now message force ch j h hslot]
        have hpj : pendingAt s ch j := (hInv ch j).mpr hslot
        have hj : j < s.timers.length := pendingL_lt _ _ _ hpj
        obtain ⟨tj, hget⟩ : ∃ tj, s.timers.get? j = some tj := by
          rw [List.get?_eq_getElem?, List.getElem?_eq_getElem hj]
          exact ⟨_, rfl⟩
        have hcancel : cancelTimer s.timers j = s.timers.set j { tj with cancelled := true } := by
          rw [cancelTimer, hget]
        have hlen : (cancelTimer s.timers j).length = s.timers.length := by
          rw [hcancel, List.length_set]
        intro ch2 i
        rw [pendingAt, setSlotFor_timers]
        constructor
        · intro hp
          rcases Nat.lt_trichotomy i (cancelTimer s.timers j).length with hi | hi | hi
          · rw [pendingL_append_lt _ _ _ _ hi, hcancel] at hp
            by_cases hij : i = j
            · subst hij
              exact absurd hp (pendingL_set_cancelled _ _ _ _ hget)
            · rw [pendingL_set_ne _ _ _ _ _ hij] at hp
              have hs2 := (hInv ch2 i).mp hp
              by_cases hch : ch2 = ch
              · subst hch
                rw [hslot] at hs2
                exact absurd (Option.some.inj hs2).symm hij
              · rw [slotFor_setSlotFor_ne _ _ _ _ hch]
                exact hs2
          · subst hi
            rw [pendingL_append_len] at hp
            have hc : ch = ch2 := hp.2.2
            subst hc
            rw [slotFor_setSlotFor_self]
          · exact absurd hp (pendingL_append_gt _ _ _ _ hi)
        · intro hs
          by_cases hch : ch2 = ch
          · subst hch
            rw [slotFor_setSlotFor_self] at hs
            have hi := Option.some.inj hs
            subst hi
            rw [pendingL_append_len]
            exact ⟨rfl, rfl, rfl⟩
          · rw [slotFor_setSlotFor_ne _ _ _ _ hch] at hs
            have hp := (hInv ch2 i).mpr hs
            have hi := pendingL_lt _ _ _ hp
            by_cases hij : i = j
            · subst hij
              rw [pendingAt, pendingL, hget] at hp
              have : tj.channel = ch := by
                rw [pendingAt, pendingL, hget] at hpj
                exact hpj.2.2
              exact absurd (hp.2.2.symm.trans this) hch
            · rw [pendingL_append_lt _ _ _ _ (by omega), hcancel,
                pendingL_set_ne _ _ _ _ _ hij]
              exact hp
  · rw [announceArrive_direct s now message force ch h]
    have hsl : ∀ c, slotFor
        { s with ann := setLastFor (resolveAnnounceText s.ann ch message force).2 ch message
                   (now + REGION_CLEAR_DELAY_MS)
                 writes := s.writes ++ [(now + REGION_CLEAR_DELAY_MS, ch,
                   (resolveAnnounceText s.ann ch message force).1)] } c = slotFor s c := by
      intro c
      cases c <;> rfl
    intro ch2 i
    rw [hsl ch2]
    exact hInv ch2 i

theorem fireTimer_eq_none (s : SchedState) (i : Nat) (hget : s.timers.get? i = none) :
    fireTimer s i = s := by
  simp only [fireTimer, hget]

theorem fireTimer_eq_skip (s : SchedState) (i : Nat) (t : Timer)
    (hget : s.timers.get? i = some t) (hcf : (t.cancelled || t.fired) = true) :
    fireTimer s i = s := by
  simp only [fireTimer, hget, hcf, if_true]

theorem fireTimer_eq_run (s : SchedState) (i : Nat) (t : Timer)
    (hget : s.timers.get? i = some t) (hc : t.cancelled = false) (hf : t.fired = false) :
    fireTimer s i =
      setSlotFor
        { s with ann := setLastFor s.ann t.channel t.origMessage
                   (t.fireAt + REGION_CLEAR_DELAY_MS)
                 timers := s.timers.set i { t with fired := true }
                 writes := s.writes ++ [(t.fireAt + REGION_CLEAR_DELAY_MS, t.channel, t.text)] }
        t.channel none := by
  simp only [fireTimer, hget, hc, hf, Bool.or_self, Bool.false_eq_true, if_false]
  cases hch : t.channel <;> simp [setSlotFor, hch]

theorem schedInv_fireTimer (s : SchedState) (i : Nat) (hInv : SchedInv s) :
    SchedInv (fireTimer s i) := by
  cases hget : s.timers.get? i with
  | none =>
      rw [fireTimer_eq_none s i hget]
      exact hInv
  | some t =>
      by_cases hc : t.cancelled = true
      · rw [fireTimer_eq_skip s i t hget (by rw [hc]; rfl)]
        exact hInv
      by_cases hf : t.fired = true
      · rw [fireTimer_eq_skip s i t hget (by rw [hf, Bool.or_true])]
        exact hInv
      have hc2 : t.cancelled = false := by
        cases hcv : t.cancelled
        · rfl
        · exact absurd hcv hc
      have hf2 : t.fired = false := by
        cases hfv : t.fired
        · rfl
        · exact absurd hfv hf
      rw [fireTimer_eq_run s i t hget hc2 hf2]
      have hp0 : pendingAt s t.channel i := by
        rw [pendingAt, pendingL, hget]
        exact ⟨hc2, hf2, rfl⟩
      have hslot : slotFor s t.channel = some i := (hInv t.channel i).mp hp0
      intro ch2 i2
      rw [pendingAt, setSlotFor_timers]
      constructor
      · intro hp
        by_cases hii : i2 = i
        · subst hii
          exact absurd hp (pendingL_set_fired _ _ _ _ hget)
        · rw [pendingL_set_ne _ _ _ _ _ hii] at hp
          have hs2 := (hInv ch2 i2).mp hp
          by_cases hch : ch2 = t.channel
          · subst hch
            rw [hs2] at hslot
            exact absurd (Option.some.inj hslot) hii
          · rw [slotFor_setSlotFor_ne _ _ _ _ hch]
            exact hs2
      · intro hs
        by_cases hch : ch2 = t.channel
        · subst hch
          rw [slotFor_setSlotFor_self] at hs
          exact Option.noConfusion hs
        · rw [slotFor_setSlotFor_ne _ _ _ _ hch] at hs
          have hp := (hInv ch2 i2).mpr hs
          by_cases hii : i2 = i
          · subst hii
            rw [pendingAt, pendingL, hget] at hp
            exact absurd hp.2.2.symm hch
          · rw [pendingL_set_ne _ _ _ _ _ hii]
            exact hp



theorem lastTimestampFor_resolve (g : AnnouncerState) (ch c2 : Politeness)
    (m : String) (f : Bool) :
    lastTimestampFor (resolveAnnounceText g ch m f).2 c2 = lastTimestampFor g c2 := by
  rw [resolveAnnounceText]
  split
  · cases c2 <;> rfl
  · rfl

theorem lastMessageFor_resolve (g : AnnouncerState) (ch c2 : Politeness)
    (m : String) (f : Bool) :
    lastMessageFor (resolveAnnounceText g ch m f).2 c2 = lastMessageFor g c2 := by
  rw [resolveAnnounceText]
  split
  · cases c2 <;> rfl
  · rfl

theorem push_dropLast (m : String) (c : Char) :
    (String.push m c).data.dropLast = m.data := by
  simp [String.push]

theorem getZeroWidthChar_period (n : Nat) :
    getZeroWidthChar (n + ZERO_WIDTH_CHARS.length) = getZeroWidthChar n := by
  simp [getZeroWidthChar, ZERO_WIDTH_CHARS, Nat.add_mod_right]

theorem contentDecision_forced (recent : List (String × Nat)) (now : Nat) (e : FeedbackEvent)
    (h : e.options.force = true) :
    contentDedupeDecision recent now e =
      { shouldSkip := false, replacedEvent := none, reason := "none" } := by
  simp [contentDedupeDecision, h]

theorem c5_two_announced :
    ∀ (cfg : Bool) (st0 : CoreState) (m1 m2 : String) (ty1 ty2 : FeedbackType)
      (t1 t2 : Nat) (opts1 opts2 : FeedbackOptions) (g1 g2 : String) (dom1 dom2 : DomModel),
      opts1.force = true → opts2.force = true →
      idFreeB st0.active opts1 = true →
      idFreeB ((processFeedback cfg st0 t1 (createFeedbackEvent m1 ty1 opts1 g1 t1) dom1).1).active
        opts2 = true →
      countLabel "announced"
          ((processFeedback cfg ((processFeedback cfg st0 t1 (createFeedbackEvent m1 ty1 opts1 g1 t1) dom1).1)
              t2 (createFeedbackEvent m2 ty2 opts2 g2 t2) dom2).1).emitted =
        countLabel "announced" st0.emitted + 2 := by
  intro cfg st0 m1 m2 ty1 ty2 t1 t2 opts1 opts2 g1 g2 dom1 dom2 hforce1 hforce2 hid1 hid2
  have hdec1 : checkDuplicate st0.active st0.recent t1 (createFeedbackEvent m1 ty1 opts1 g1 t1) =
      ({ shouldSkip := false, replacedEvent := none, reason := "none" }, st0.active) := by
    rw [checkDuplicate_idFree st0.active st0.recent t1 _ hid1]
    rw [contentDecision_forced st0.recent t1 _ hforce1]
  have hp1 := processFeedback_proceed cfg st0 t1 (createFeedbackEvent m1 ty1 opts1 g1 t1) dom1
    { shouldSkip := false, replacedEvent := none, reason := "none" } st0.active hdec1 rfl
  have hdec2 : checkDuplicate
      ((processFeedback cfg st0 t1 (createFeedbackEvent m1 ty1 opts1 g1 t1) dom1).1).active
      ((processFeedback cfg st0 t1 (createFeedbackEvent m1 ty1 opts1 g1 t1) dom1).1).recent
      t2 (createFeedbackEvent m2 ty2 opts2 g2 t2) =
      ({ shouldSkip := false, replacedEvent := none, reason := "none" },
        ((processFeedback cfg st0 t1 (createFeedbackEvent m1 ty1 opts1 g1 t1) dom1).1).active) := by
    rw [checkDuplicate_idFree _ _ _ _ hid2]
    rw [contentDecision_forced _ t2 _ hforce2]
  have hp2 := processFeedback_proceed cfg
    ((processFeedback cfg st0 t1 (createFeedbackEvent m1 ty1 opts1 g1 t1) dom1).1)
    t2 (createFeedbackEvent m2 ty2 opts2 g2 t2) dom2
    { shouldSkip := false, replacedEvent := none, reason := "none" }
    ((processFeedback cfg st0 t1 (createFeedbackEvent m1 ty1 opts1 g1 t1) dom1).1).active hdec2 rfl
  have hem1 : ((processFeedback cfg st0 t1 (createFeedbackEvent m1 ty1 opts1 g1 t1) dom1).1).emitted =
      (st0.emitted ++ [("announced", { createFeedbackEvent m1 ty1 opts1 g1 t1 with replaced := false })]) ++
        (if (mediateFocus { createFeedbackEvent m1 ty1 opts1 g1 t1 with replaced := false } dom1).moved then
          [("focusMoved", { createFeedbackEvent m1 ty1 opts1 g1 t1 with replaced := false })] else []) := by
    rw [hp1]
    rfl
  have hem2 : ((processFeedback cfg ((processFeedback cfg st0 t1 (createFeedbackEvent m1 ty1 opts1 g1 t1) dom1).1)
      t2 (createFeedbackEvent m2 ty2 opts2 g2 t2) dom2).1).emitted =
      (((processFeedback cfg st0 t1 (createFeedbackEvent m1 ty1 opts1 g1 t1) dom1).1).emitted ++
        [("announced", { createFeedbackEvent m2 ty2 opts2 g2 t2 with replaced := false })]) ++
        (if (mediateFocus { createFeedbackEvent m2 ty2 opts2 g2 t2 with replaced := false } dom2).moved then
          [("focusMoved", { createFeedbackEvent m2 ty2 opts2 g2 t2 with replaced := false })] else []) := by
    rw [hp2]
    rfl
  rw [hem2, hem1]
  rw [countLabel_append, countLabel_append, countLabel_append, countLabel_append,
    countLabel_single_eq]
  have hfm1 : countLabel "announced"
      (if (mediateFocus { createFeedbackEvent m1 ty1 opts1 g1 t1 with replaced := false } dom1).moved then
        [("focusMoved", { createFeedbackEvent m1 ty1 opts1 g1 t1 with replaced := false })] else []) = 0 := by
    split
    · exact countLabel_single_ne _ "focusMoved" _ (by decide)
    · simp [countLabel]
  have hfm2 : countLabel "announced"
      (if (mediateFocus { createFeedbackEvent m2 ty2 opts2 g2 t2 with replaced := false } dom2).moved then
        [("focusMoved", { createFeedbackEvent m2 ty2 opts2 g2 t2 with replaced := false })] else []) = 0 := by
    split
    · exact countLabel_single_ne _ "focusMoved" _ (by decide)
    · simp [countLabel]
  rw [hfm1, hfm2, countLabel_single_eq]


/-- The initial scheduler state satisfies the scheduler invariant. -/
theorem schedInv_initial : SchedInv initialSched := by
  intro ch i
  constructor
  · intro hp
    exact hp.elim
  · intro hs
    cases ch <;> exact Option.noConfusion hs

/-- C4: the channel timer handle always tracks exactly the pending scheduled
write, so at most one scheduled write is ever outstanding per channel (the
invariant is preserved by every arrival and every timer callback), and when
two announcement requests arrive on the same channel while the channel is
within the minimum spacing of its last announcement, the first pending write
is cancelled and only the second (later) message is ultimately written to the
region, as a single atomic clear-and-write step: the write log receives
exactly one entry, carrying the second message (plus at most one appended
zero-width character), never both messages. -/
theorem pending_write_coalescing :
    (∀ (s : SchedState) (now : Nat) (message : String) (force : Bool) (ch : Politeness),
      SchedInv s → SchedInv (announceArrive s now message force ch)) ∧
    (∀ (s : SchedState) (i : Nat), SchedInv s → SchedInv (fireTimer s i)) ∧
    (∀ (g : AnnouncerState) (t1 t2 : Nat) (m1 m2 : String) (f1 f2 : Bool) (ch : Politeness),
      t1 - lastTimestampFor g ch < ANNOUNCEMENT_DEBOUNCE_MS →
      t2 - lastTimestampFor g ch < ANNOUNCEMENT_DEBOUNCE_MS →
      ∃ wtext,
        (fireTimer
          (announceArrive
            (announceArrive
              { ann := g, timers := [], politeSlot := none, assertiveSlot := none, writes := [] }
              t1 m1 f1 ch)
            t2 m2 f2 ch) 1).writes =
          [(t2 + ANNOUNCEMENT_DEBOUNCE_MS + REGION_CLEAR_DELAY_MS, ch, wtext)] ∧
        (wtext = m2 ∨ ∃ c, c ∈ ZERO_WIDTH_CHARS ∧ wtext = String.push m2 c)) := by
  refine ⟨schedInv_announceArrive, schedInv_fireTimer, ?_⟩
  intro g t1 t2 m1 m2 f1 f2 ch h1 h2
  cases ch with
  | polite =>
      simp only [lastTimestampFor] at h1 h2
      by_cases hf1 : (f1 = true ∨ some m1 = g.lastPoliteMessage)
      · by_cases hf2 : (f2 = true ∨ some m2 = g.lastPoliteMessage)
        · refine ⟨String.push m2 (getZeroWidthChar (g.zwcCounter + 1)), ?_,
            Or.inr ⟨_, getZeroWidthChar_mem _, rfl⟩⟩
          simp [announceArrive, resolveAnnounceText, appendZeroWidth, fireTimer, cancelTimer,
            setSlotFor, slotFor, lastTimestampFor, lastMessageFor, setLastFor, h1, h2, hf1, hf2]
        · refine ⟨m2, ?_, Or.inl rfl⟩
          simp [announceArrive, resolveAnnounceText, appendZeroWidth, fireTimer, cancelTimer,
            setSlotFor, slotFor, lastTimestampFor, lastMessageFor, setLastFor, h1, h2, hf1, hf2]
      · by_cases hf2 : (f2 = true ∨ some m2 = g.lastPoliteMessage)
        · refine ⟨String.push m2 (getZeroWidthChar g.zwcCounter), ?_,
            Or.inr ⟨_, getZeroWidthChar_mem _, rfl⟩⟩
          simp [announceArrive, resolveAnnounceText, appendZeroWidth, fireTimer, cancelTimer,
            setSlotFor, slotFor, lastTimestampFor, lastMessageFor, setLastFor, h1, h2, hf1, hf2]
        · refine ⟨m2, ?_, Or.inl rfl⟩
          simp [announceArrive, resolveAnnounceText, appendZeroWidth, fireTimer, cancelTimer,
            setSlotFor, slotFor, lastTimestampFor, lastMessageFor, setLastFor, h1, h2, hf1, hf2]
  | assertive =>
      simp only [lastTimestampFor] at h1 h2
      by_cases hf1 : (f1 = true ∨ some m1 = g.lastAssertiveMessage)
      · by_cases hf2 : (f2 = true ∨ some m2 = g.lastAssertiveMessage)
        · refine ⟨String.push m2 (getZeroWidthChar (g.zwcCounter + 1)), ?_,
            Or.inr ⟨_, getZeroWidthChar_mem _, rfl⟩⟩
          simp [announceArrive, resolveAnnounceText, appendZeroWidth, fireTimer, cancelTimer,
            setSlotFor, slotFor, lastTimestampFor, lastMessageFor, setLastFor, h1, h2, hf1, hf2]
        · refine ⟨m2, ?_, Or.inl rfl⟩
          simp [announceArrive, resolveAnnounceText, appendZeroWidth, fireTimer, cancelTimer,
            setSlotFor, slotFor, lastTimestampFor, lastMessageFor, setLastFor, h1, h2, hf1, hf2]
      · by_cases hf2 : (f2 = true ∨ some m2 = g.lastAssertiveMessage)
        · refine ⟨String.push m2 (getZeroWidthChar g.zwcCounter), ?_,
            Or.inr ⟨_, getZeroWidthChar_mem _, rfl⟩⟩
          simp [announceArrive, resolveAnnounceText, appendZeroWidth, fireTimer, cancelTimer,
            setSlotFor, slotFor, lastTimestampFor, lastMessageFor, setLastFor, h1, h2, hf1, hf2]
        · refine ⟨m2, ?_, Or.inl rfl⟩
          simp [announceArrive, resolveAnnounceText, appendZeroWidth, fireTimer, cancelTimer,
            setSlotFor, slotFor, lastTimestampFor, lastMessageFor, setLastFor, h1, h2, hf1, hf2]

/-- Witness for C4: two polite requests at 10 and 20 ms after a fresh start;
only the second text is written, at 170 ms. -/
theorem pending_write_coalescing_witness :
    SchedInv (announceArrive initialSched 5 "x" false .polite) ∧
    (∃ wtext,
      (fireTimer
        (announceArrive
          (announceArrive
            { ann := { lastPoliteMessage := none, lastAssertiveMessage := none,
                       lastPoliteTimestamp := 0, lastAssertiveTimestamp := 0, zwcCounter := 0 }
              timers := [], politeSlot := none, assertiveSlot := none, writes := [] }
            10 "first" false .polite)
          20 "second" false .polite) 1).writes =
        [(20 + ANNOUNCEMENT_DEBOUNCE_MS + REGION_CLEAR_DELAY_MS, Politeness.polite, wtext)] ∧
      (wtext = "second" ∨ ∃ c, c ∈ ZERO_WIDTH_CHARS ∧ wtext = String.push "second" c)) := by
  constructor
  · exact pending_write_coalescing.1 initialSched 5 "x" false .polite schedInv_initial
  · exact pending_write_coalescing.2.2
      { lastPoliteMessage := none, lastAssertiveMessage := none,
        lastPoliteTimestamp := 0, lastAssertiveTimestamp := 0, zwcCounter := 0 }
      10 20 "first" "second" false false .polite (by decide) (by decide)

/-- C5: whenever options.force is set or the message equals the channel last
announced text, exactly one character from the fixed four-element zero-width
pool is appended, at index counter modulo the pool size, and the counter
advances; the pool rotation has period four and consecutive picks always
differ; consequently two forced submissions of the same text in immediate
succession produce two region writes whose texts each extend the visible
message by exactly one trailing invisible character, and those trailing
characters differ; and a forced submission is never skipped by dedupe, so
both submissions are announced (two announced emissions). -/
theorem forced_reannounce_zwc :
    (∀ (g : AnnouncerState) (ch : Politeness) (m : String) (f : Bool),
      (f = true ∨ some m = lastMessageFor g ch) →
      resolveAnnounceText g ch m f =
        (String.push m (getZeroWidthChar g.zwcCounter),
          { g with zwcCounter := g.zwcCounter + 1 }) ∧
      getZeroWidthChar g.zwcCounter ∈ ZERO_WIDTH_CHARS) ∧
    (∀ n, getZeroWidthChar (n + ZERO_WIDTH_CHARS.length) = getZeroWidthChar n) ∧
    (∀ n, getZeroWidthChar n ≠ getZeroWidthChar (n + 1)) ∧
    (∀ (g : AnnouncerState) (t1 t2 : Nat) (m : String) (ch : Politeness),
      ¬ (t1 - lastTimestampFor g ch < ANNOUNCEMENT_DEBOUNCE_MS) →
      t2 - (t1 + REGION_CLEAR_DELAY_MS) < ANNOUNCEMENT_DEBOUNCE_MS →
      (fireTimer
        (announceArrive
          (announceArrive
            { ann := g, timers := [], politeSlot := none, assertiveSlot := none, writes := [] }
            t1 m true ch)
          t2 m true ch) 0).writes =
        [(t1 + REGION_CLEAR_DELAY_MS, ch, String.push m (getZeroWidthChar g.zwcCounter)),
         (t2 + ANNOUNCEMENT_DEBOUNCE_MS + REGION_CLEAR_DELAY_MS, ch,
           String.push m (getZeroWidthChar (g.zwcCounter + 1)))] ∧
      getZeroWidthChar g.zwcCounter ≠ getZeroWidthChar (g.zwcCounter + 1) ∧
      (String.push m (getZeroWidthChar g.zwcCounter)).data.dropLast = m.data ∧
      (String.push m (getZeroWidthChar (g.zwcCounter + 1))).data.dropLast = m.data) ∧
    (∀ (active : List (String × FeedbackEvent)) (recent : List (String × Nat)) (now : Nat)
        (e : FeedbackEvent), e.options.force = true →
      (checkDuplicate active recent now e).1.shouldSkip = false) ∧
    (∀ (cfg : Bool) (st0 : CoreState) (m1 m2 : String) (ty1 ty2 : FeedbackType)
        (t1 t2 : Nat) (opts1 opts2 : FeedbackOptions) (g1 g2 : String) (dom1 dom2 : DomModel),
      opts1.force = true → opts2.force = true →
      idFreeB st0.active opts1 = true →
      idFreeB ((processFeedback cfg st0 t1 (createFeedbackEvent m1 ty1 opts1 g1 t1) dom1).1).active
        opts2 = true →
      countLabel "announced"
          ((processFeedback cfg
              ((processFeedback cfg st0 t1 (createFeedbackEvent m1 ty1 opts1 g1 t1) dom1).1)
              t2 (createFeedbackEvent m2 ty2 opts2 g2 t2) dom2).1).emitted =
        countLabel "announced" st0.emitted + 2) := by
  refine ⟨?_, getZeroWidthChar_period, getZeroWidthChar_succ_ne, ?_, ?_, c5_two_announced⟩
  · intro g ch m f h
    constructor
    · rw [resolveAnnounceText, if_pos h]
      rfl
    · exact getZeroWidthChar_mem _
  · intro g t1 t2 m ch h1 h2
    refine ⟨?_, getZeroWidthChar_succ_ne _, push_dropLast _ _, push_dropLast _ _⟩
    cases ch <;>
      [skip; skip] <;>
      · simp only [lastTimestampFor] at h1
        simp [announceArrive, resolveAnnounceText, appendZeroWidth, fireTimer, cancelTimer,
          setSlotFor, slotFor, lastTimestampFor, lastMessageFor, setLastFor, h1, h2]
  · intro active recent now e hforce
    have hcontent : (contentDedupeDecision recent now e).shouldSkip = false := by
      simp [contentDedupeDecision, hforce]
    cases hid : e.options.id with
    | none => simpa [checkDuplicate, hid] using hcontent
    | some i =>
        by_cases hi : i = ""
        · simpa [checkDuplicate, hid, hi] using hcontent
        · cases hlook : lookupA active i with
          | none => simpa [checkDuplicate, hid, hi, hlook] using hcontent
          | some old => simp [checkDuplicate, hid, hi, hlook]

/-- Witness for C5: the same message forced twice, at 200 and 260 ms, starting
with counter 7: the two written texts end in different pool characters. -/
theorem forced_reannounce_zwc_witness :
    (fireTimer
      (announceArrive
        (announceArrive
          { ann := { lastPoliteMessage := none, lastAssertiveMessage := none,
                     lastPoliteTimestamp := 0, lastAssertiveTimestamp := 0, zwcCounter := 7 }
            timers := [], politeSlot := none, assertiveSlot := none, writes := [] }
          200 "Saved" true .polite)
        260 "Saved" true .polite) 0).writes =
      [(200 + REGION_CLEAR_DELAY_MS, Politeness.polite,
        String.push "Saved" (getZeroWidthChar 7)),
       (260 + ANNOUNCEMENT_DEBOUNCE_MS + REGION_CLEAR_DELAY_MS, Politeness.polite,
        String.push "Saved" (getZeroWidthChar (7 + 1)))] ∧
    getZeroWidthChar 7 ≠ getZeroWidthChar (7 + 1) := by
  have h := forced_reannounce_zwc.2.2.2.1
    { lastPoliteMessage := none, lastAssertiveMessage := none,
      lastPoliteTimestamp := 0, lastAssertiveTimestamp := 0, zwcCounter := 7 }
    200 260 "Saved" .polite (by decide) (by decide)
  exact ⟨h.1, h.2.1⟩




theorem bool_not_true {b : Bool} (h : ¬ b = true) : b = false := by
  cases b
  · rfl
  · exact absurd rfl h

theorem processFeedback_skip_active (cfg : Bool) (st : CoreState) (now : Nat)
    (e : FeedbackEvent) (dom : DomModel)
    (h : (checkDuplicate st.active st.recent now e).1.shouldSkip = true) :
    ((processFeedback cfg st now e dom).1).active = st.active := by
  rw [processFeedback_skip cfg st now e dom h]

theorem processFeedback_skip_visual (cfg : Bool) (st : CoreState) (now : Nat)
    (e : FeedbackEvent) (dom : DomModel)
    (h : (checkDuplicate st.active st.recent now e).1.shouldSkip = true) :
    ((processFeedback cfg st now e dom).1).visualItems = st.visualItems := by
  rw [processFeedback_skip cfg st now e dom h]

theorem processFeedback_proceed_active (cfg : Bool) (st : CoreState) (now : Nat)
    (e : FeedbackEvent) (dom : DomModel)
    (hskip : (checkDuplicate st.active st.recent now e).1.shouldSkip = false) :
    ((processFeedback cfg st now e dom).1).active =
      setA (checkDuplicate st.active st.recent now e).2 e.id
        { e with replaced := (checkDuplicate st.active st.recent now e).1.replacedEvent.isSome } := by
  rw [processFeedback_proceed cfg st now e dom
    (checkDuplicate st.active st.recent now e).1
    (checkDuplicate st.active st.recent now e).2 rfl hskip]

theorem processFeedback_proceed_visual (cfg : Bool) (st : CoreState) (now : Nat)
    (e : FeedbackEvent) (dom : DomModel)
    (hskip : (checkDuplicate st.active st.recent now e).1.shouldSkip = false) :
    ((processFeedback cfg st now e dom).1).visualItems =
      if cfg = true then
        (if st.visualItems.contains e.id then st.visualItems else st.visualItems ++ [e.id])
      else st.visualItems := by
  rw [processFeedback_proceed cfg st now e dom
    (checkDuplicate st.active st.recent now e).1
    (checkDuplicate st.active st.recent now e).2 rfl hskip]

theorem checkDuplicate_active_cases (active : List (String × FeedbackEvent))
    (recent : List (String × Nat)) (now : Nat) (e : FeedbackEvent) :
    (checkDuplicate active recent now e).2 = active ∨
    (∃ i, e.options.id = some i ∧ i ≠ "" ∧
      (checkDuplicate active recent now e).2 = eraseA active i) := by
  cases hid : e.options.id with
  | none =>
      left
      simp [checkDuplicate, hid]
  | some i =>
      by_cases hi : i = ""
      · left
        simp [checkDuplicate, hid, hi]
      · cases hlook : lookupA active i with
        | none =>
            left
            simp [checkDuplicate, hid, hi, hlook]
        | some old =>
            right
            refine ⟨i, rfl, hi, ?_⟩
            simp [checkDuplicate, hid, hi, hlook]

theorem createFeedbackEvent_id_of_optId (message : String) (t : FeedbackType)
    (opts : FeedbackOptions) (genId : String) (now : Nat) (i : String)
    (h : opts.id = some i) :
    (createFeedbackEvent message t opts genId now).id = i := by
  show opts.id.getD genId = i
  rw [h]
  rfl

theorem visual_empty_persists_step (st : CoreState) (op : CoreOp)
    (hvis : st.visualItems = []) : (coreStep false st op).visualItems = [] := by
  cases op with
  | dismiss i =>
      simp [coreStep, dismissVisual, hvis]
  | submit now message t opts genId dom =>
      by_cases hskip : (checkDuplicate st.active st.recent now
          (createFeedbackEvent message t opts genId now)).1.shouldSkip = true
      · rw [coreStep, processFeedback_skip_visual false st now _ dom hskip]
        exact hvis
      · rw [coreStep, processFeedback_proceed_visual false st now _ dom (bool_not_true hskip)]
        exact hvis

theorem active_key_persists_step (st : CoreState) (op : CoreOp) (k : String)
    (hvis : st.visualItems = []) (hk : lookupA st.active k ≠ none) :
    lookupA (coreStep false st op).active k ≠ none := by
  cases op with
  | dismiss i =>
      rw [coreStep, dismissVisual, hvis]
      simp only [List.contains_nil, Bool.false_eq_true, if_false]
      exact hk
  | submit now message t opts genId dom =>
      by_cases hskip : (checkDuplicate st.active st.recent now
          (createFeedbackEvent message t opts genId now)).1.shouldSkip = true
      · rw [coreStep, processFeedback_skip_active false st now _ dom hskip]
        exact hk
      · rw [coreStep, processFeedback_proceed_active false st now _ dom (bool_not_true hskip)]
        by_cases hek : (createFeedbackEvent message t opts genId now).id = k
        · rw [← hek, lookupA_setA_self]
          exact Option.noConfusion
        · rw [lookupA_setA_ne _ _ _ _ (fun hh => hek hh.symm)]
          rcases checkDuplicate_active_cases st.active st.recent now
              (createFeedbackEvent message t opts genId now) with hca | ⟨i, hidi, hine, hca⟩
          · rw [hca]
            exact hk
          · rw [hca]
            have hei : (createFeedbackEvent message t opts genId now).id = i :=
              createFeedbackEvent_id_of_optId message t opts genId now i hidi
            rw [lookupA_eraseA_ne st.active i k (fun hh => hek (hei.trans hh.symm))]
            exact hk

theorem active_key_persists_trace (st : CoreState) (ops : List CoreOp) (k : String)
    (hvis : st.visualItems = []) (hk : lookupA st.active k ≠ none) :
    lookupA (runOps false st ops).active k ≠ none := by
  induction ops generalizing st with
  | nil => exact hk
  | cons op rest ih =>
      rw [runOps, List.foldl_cons]
      exact ih (coreStep false st op)
        (visual_empty_persists_step st op hvis)
        (active_key_persists_step st op k hvis hk)

theorem announced_event_registered (cfg : Bool) (st : CoreState) (now : Nat)
    (e : FeedbackEvent) (dom : DomModel)
    (hskip : (checkDuplicate st.active st.recent now e).1.shouldSkip = false) :
    lookupA ((processFeedback cfg st now e dom).1).active e.id =
      some { e with
        replaced := (checkDuplicate st.active st.recent now e).1.replacedEvent.isSome } := by
  rw [processFeedback_proceed_active cfg st now e dom hskip, lookupA_setA_self]

theorem active_removed_only_by (cfg : Bool) (st : CoreState) (op : CoreOp)
    (k : String) (ev : FeedbackEvent)
    (hbefore : lookupA st.active k = some ev)
    (hafter : lookupA (coreStep cfg st op).active k ≠ some ev) :
    (∃ now message t opts genId dom,
      op = CoreOp.submit now message t opts genId dom ∧
      (createFeedbackEvent message t opts genId now).id = k) ∨
    (op = CoreOp.dismiss k ∧ st.visualItems.contains k = true) := by
  cases op with
  | dismiss i =>
      by_cases hc : st.visualItems.contains i = true
      · by_cases hik : i = k
        · subst hik
          exact Or.inr ⟨rfl, hc⟩
        · exfalso
          rw [coreStep, dismissVisual, if_pos hc,
            lookupA_eraseA_ne _ _ _ (fun hh => hik hh.symm)] at hafter
          exact hafter hbefore
      · exfalso
        rw [coreStep, dismissVisual, if_neg hc] at hafter
        exact hafter hbefore
  | submit now message t opts genId dom =>
      by_cases hskip : (checkDuplicate st.active st.recent now
          (createFeedbackEvent message t opts genId now)).1.shouldSkip = true
      · exfalso
        rw [coreStep, processFeedback_skip_active cfg st now _ dom hskip] at hafter
        exact hafter hbefore
      · by_cases hek : (createFeedbackEvent message t opts genId now).id = k
        · exact Or.inl ⟨now, message, t, opts, genId, dom, rfl, hek⟩
        · exfalso
          rw [coreStep, processFeedback_proceed_active cfg st now _ dom (bool_not_true hskip),
            lookupA_setA_ne _ _ _ _ (fun hh => hek hh.symm)] at hafter
          rcases checkDuplicate_active_cases st.active st.recent now
              (createFeedbackEvent message t opts genId now) with hca | ⟨i, hidi, hine, hca⟩
          · rw [hca] at hafter
            exact hafter hbefore
          · rw [hca] at hafter
            have hei : (createFeedbackEvent message t opts genId now).id = i :=
              createFeedbackEvent_id_of_optId message t opts genId now i hidi
            rw [lookupA_eraseA_ne st.active i k (fun hh => hek (hei.trans hh.symm))] at hafter
            exact hafter hbefore


/-- C10: with visual mode disabled, no visual item ever exists, dismissal is
the only active-map removal besides same-id replacement and it requires a
visual item, so every announced event id, once registered, remains a key of
the active-events map for the rest of the run: (i) the empty visual-item set
is preserved by every operation, (ii) and (iii) an id present in the active
map survives every single operation and every operation sequence, (iv) every
non-skipped submit registers its event in the active map under its
caller-supplied or generated id, and (v) in any mode, an active entry changes
only through a submit that registers under the same id or through a dismissal
of that id backed by a visual item. -/
theorem active_event_retention :
    (∀ (st : CoreState) (op : CoreOp), st.visualItems = [] →
      (coreStep false st op).visualItems = []) ∧
    (∀ (st : CoreState) (op : CoreOp) (k : String), st.visualItems = [] →
      lookupA st.active k ≠ none → lookupA (coreStep false st op).active k ≠ none) ∧
    (∀ (st : CoreState) (ops : List CoreOp) (k : String), st.visualItems = [] →
      lookupA st.active k ≠ none → lookupA (runOps false st ops).active k ≠ none) ∧
    (∀ (cfg : Bool) (st : CoreState) (now : Nat) (e : FeedbackEvent) (dom : DomModel),
      (checkDuplicate st.active st.recent now e).1.shouldSkip = false →
      lookupA ((processFeedback cfg st now e dom).1).active e.id =
        some { e with
          replaced := (checkDuplicate st.active st.recent now e).1.replacedEvent.isSome }) ∧
    (∀ (cfg : Bool) (st : CoreState) (op : CoreOp) (k : String) (ev : FeedbackEvent),
      lookupA st.active k = some ev →
      lookupA (coreStep cfg st op).active k ≠ some ev →
      (∃ now message t opts genId dom,
        op = CoreOp.submit now message t opts genId dom ∧
        (createFeedbackEvent message t opts genId now).id = k) ∨
      (op = CoreOp.dismiss k ∧ st.visualItems.contains k = true)) :=
  ⟨visual_empty_persists_step, active_key_persists_step, active_key_persists_trace,
    announced_event_registered, active_removed_only_by⟩

/-- Witness for C10: with visual mode off, an active event survives a
dismissal attempt and an unrelated submit. -/
theorem active_event_retention_witness :
    lookupA
      (runOps false
        { active := [("n1", emptyIdEventOne)], recent := [], sched := initialSched,
          emitted := [], visualItems := [] }
        [CoreOp.dismiss "n1", CoreOp.submit 5 "x" .info noOptions "g7" emptyDom]).active
      "n1" ≠ none := by
  exact active_event_retention.2.2.1
    { active := [("n1", emptyIdEventOne)], recent := [], sched := initialSched,
      emitted := [], visualItems := [] }
    [CoreOp.dismiss "n1", CoreOp.submit 5 "x" .info noOptions "g7" emptyDom]
    "n1" rfl (by decide)


end A11y
